import Mathlib

/-!
Verification development for the inlineVideo Telegram bot (`main.py`).

The bot's pure logic — translation lookup, text sanitization, star-rating
rendering, message formatting — and its effectful command handlers — the
in-memory query cache, the user-settings store, the pending-selection flow —
are shallowly embedded below. Decoded JSON values (Python `dict`/`list`/
`str`/`int`/`float`/`None`) are modelled by the inductive `PyV`; floats are
modelled as rationals; stateful handlers become pure functions threading an
explicit `World` state and returning the list of texts surfaced to the
caller plus a count of outbound provider calls. A code path that would raise
an exception inside a `try` block is modelled by `Option.none`, matching the
source's catch-all handlers.
-/

/-- Decoded JSON / Python value: `None`, `int`, `float` (as a rational),
`str`, `list`, `dict`. This is the type of provider payloads, cache values
and formatter inputs in the source. -/
inductive PyV where
  | none
  | int (n : ℤ)
  | rat (q : ℚ)
  | str (s : String)
  | listV (l : List PyV)
  | dictV (d : List (String × PyV))

/-- Python truthiness: `None`, `0`, `0.0`, `""`, `[]`, `{}` are falsy. -/
def PyV.truthy : PyV → Bool
  | .none => false
  | .int n => n ≠ 0
  | .rat q => q ≠ 0
  | .str s => s ≠ ("")
  | .listV l => !l.isEmpty
  | .dictV d => !d.isEmpty

/-- `d.get(key, dflt)`: defaulting lookup on a `dict`.  Applied to a
non-`dict` it models Python's `AttributeError` as `Option.none` (the source
only calls `.get` inside `try` blocks whose handlers swallow the error). -/
def dGet (v : PyV) (key : String) (dflt : PyV) : Option PyV :=
  match v with
  | .dictV d => some ((d.lookup key).getD dflt)
  | _ => Option.none

/-- `d[key]`: strict subscript on a `dict`; a missing key or a non-`dict`
models `KeyError`/`TypeError` as `Option.none`. -/
def pyItem (v : PyV) (key : String) : Option PyV :=
  match v with
  | .dictV d => d.lookup key
  | _ => Option.none

/-- `len(v)` for lists, strings and dicts; `TypeError` otherwise. -/
def pyLen (v : PyV) : Option Nat :=
  match v with
  | .listV l => some l.length
  | .str s => some s.length
  | .dictV d => some d.length
  | _ => Option.none

/-- Python list subscript with negative-index wrap-around. -/
def pyIndexList (l : List PyV) (i : ℤ) : Option PyV :=
  if 0 ≤ i then l.get? i.toNat
  else if (-i).toNat ≤ l.length then l.get? (l.length - (-i).toNat)
  else Option.none

/-- `v[i]` for lists and strings (a string index yields a 1-char string);
`TypeError` otherwise. -/
def pyIndex (v : PyV) (i : ℤ) : Option PyV :=
  match v with
  | .listV l => pyIndexList l i
  | .str s => (pyIndexList (s.data.map (fun c => PyV.str (String.mk [c]))) i)
  | _ => Option.none

/-- `v[:n]` for lists and strings; `TypeError` otherwise. -/
def pySlice (v : PyV) (n : Nat) : Option PyV :=
  match v with
  | .listV l => some (.listV (l.take n))
  | .str s => some (.str (String.mk (s.data.take n)))
  | _ => Option.none

/-- Iterating a value in a `for`/comprehension: lists iterate elements,
strings iterate 1-char strings, anything else raises. -/
def toIterList (v : PyV) : Option (List PyV) :=
  match v with
  | .listV l => some l
  | .str s => some (s.data.map (fun c => PyV.str (String.mk [c])))
  | _ => Option.none

/-- Best-effort decimal rendering of a rational, standing in for Python's
`str(float)`.  Exact for the decimal fractions providers actually send. -/
def ratDecimalRepr (q : ℚ) : String :=
  let sign := if q < 0 then ("-") else ("")
  let a : ℚ := |q|
  let ip : ℤ := ⌊a⌋
  let fr : ℚ := a - ip
  let scaled : ℚ := fr * 1000000
  if scaled.den = 1 then
    let m : ℤ := scaled.num
    if m = 0 then sign ++ toString ip ++ (".0")
    else
      let digits := toString (1000000 + m)
      let frac := String.mk ((digits.data.drop 1).reverse.dropWhile (fun c => c = '0')).reverse
      sign ++ toString ip ++ (".") ++ frac
  else sign ++ toString q.num ++ ("/") ++ toString q.den

/-- `str(v)`, as interpolated by f-strings: `str(None) = "None"`, numbers
render decimally, containers get a simple Python-style rendering. -/
def PyV.pyStr : PyV → String
  | .none => ("None")
  | .int n => toString n
  | .rat q => ratDecimalRepr q
  | .str s => s
  | .listV _ => ("[...]")
  | .dictV _ => ("{...}")

/-- `int(v)` for numeric values (floats truncate toward zero); other types
raise (string parsing is not modelled: the fields this is applied to are
numeric per the provider schema). -/
def pyInt (v : PyV) : Option ℤ :=
  match v with
  | .int n => some n
  | .rat q => some (if 0 ≤ q then ⌊q⌋ else -⌊-q⌋)
  | _ => Option.none

/-- `a or b` on Python values: the first truthy operand, else `b`. -/
def pyOrV (a b : PyV) : PyV := if a.truthy then a else b

/-- Equality test between two scalar Python values (`==`), with Python's
cross-type numeric equality.  Container equality is not modelled (the source
compares only title strings / `None` here) and returns `false`. -/
def pyEqShallow (a b : PyV) : Bool :=
  match a, b with
  | .none, .none => true
  | .int x, .int y => x = y
  | .rat x, .rat y => x = y
  | .int x, .rat y => (x : ℚ) = y
  | .rat x, .int y => x = (y : ℚ)
  | .str x, .str y => x = y
  | _, _ => false

/-- Order-preserving de-duplication, as `list(dict.fromkeys(l))`. -/
def pyDedup (l : List PyV) : List PyV :=
  l.foldl (fun acc v => if acc.any (fun w => pyEqShallow w v) then acc else acc ++ [v]) []

/-- Python whitespace stripped by `str.strip()` (ASCII range; the source
never feeds non-ASCII whitespace through `.strip()`). -/
def wsChar (c : Char) : Bool :=
  c == ' ' || c == Char.ofNat 9 || c == Char.ofNat 10 || c == Char.ofNat 13 ||
  c == Char.ofNat 11 || c == Char.ofNat 12

/-- Left strip. -/
def lstripL (l : List Char) : List Char := l.dropWhile wsChar

/-- Right strip. -/
def rstripL (l : List Char) : List Char := (l.reverse.dropWhile wsChar).reverse

/-- `text.strip()`. -/
def pyStripL (l : List Char) : List Char := rstripL (lstripL l)

/-- Fuelled scanner for `html.unescape`, restricted to the five predefined
XML entities in semicolon-terminated form (`&amp;` `&lt;` `&gt;` `&quot;`
`&#39;`); the synopses and the properties verified here involve only these.
The fuel is the input length; each step consumes at least one character. -/
def unescapeGo : Nat → List Char → List Char
  | 0, l => l
  | _ + 1, [] => []
  | n + 1, c :: rest =>
    if c = '&' then
      if rest.take 4 = ['a', 'm', 'p', ';'] then '&' :: unescapeGo n (rest.drop 4)
      else if rest.take 3 = ['l', 't', ';'] then '<' :: unescapeGo n (rest.drop 3)
      else if rest.take 3 = ['g', 't', ';'] then '>' :: unescapeGo n (rest.drop 3)
      else if rest.take 5 = ['q', 'u', 'o', 't', ';'] then Char.ofNat 34 :: unescapeGo n (rest.drop 5)
      else if rest.take 4 = ['#', '3', '9', ';'] then Char.ofNat 39 :: unescapeGo n (rest.drop 4)
      else c :: unescapeGo n rest
    else c :: unescapeGo n rest

/-- `html.unescape` on character lists. -/
def unescapeL (l : List Char) : List Char := unescapeGo l.length l

/-- Fuelled scanner for `re.sub(r'<[^>]+>', '', text)`: each leftmost
`<`…`>` run with a non-empty body is deleted; a `<` with no closing `>` or
with an empty body is kept.  Fuel is the input length. -/
def stripTagsGo : Nat → List Char → List Char
  | 0, l => l
  | _ + 1, [] => []
  | n + 1, c :: rest =>
    if c = '<' then
      match rest.dropWhile (fun d => !(d = '>')) with
      | [] => c :: stripTagsGo n rest
      | _ :: rest2 =>
        if rest.takeWhile (fun d => !(d = '>')) = ([] : List Char) then
          c :: stripTagsGo n rest
        else stripTagsGo n rest2
    else c :: stripTagsGo n rest

/-- Tag removal on character lists. -/
def stripTagsL (l : List Char) : List Char := stripTagsGo l.length l

/-- `sanitize_text` (`main.py:374-377`) on character lists:
`re.sub(r'<[^>]+>', '', html.unescape(text)).strip()`, then truncation to
480 characters with a three-dot ellipsis when longer.  (The source's final
`text or ""` is the identity on strings and is omitted.) -/
def sanitizeL (l : List Char) : List Char :=
  let c := pyStripL (stripTagsL (unescapeL l))
  if 480 < c.length then c.take 480 ++ ['.', '.', '.'] else c

/-- `sanitize_text` on strings. -/
def sanitize_text (s : String) : String := String.mk (sanitizeL s.data)

/-- `html.unescape` on strings (see `unescapeGo`). -/
def unescape_text (s : String) : String := String.mk (unescapeL s.data)

/-- Markup-tag removal on strings (see `stripTagsGo`). -/
def striptags_text (s : String) : String := String.mk (stripTagsL s.data)

/-- `str.strip()` on strings. -/
def strip_text (s : String) : String := String.mk (pyStripL s.data)

/-- The `TRANSLATIONS["fr"]` table (`main.py:74-237`). -/
def frTable : List (String × String) := [
  ("access_denied", "⛔ Accès refusé. Bot réservé aux utilisateurs autorisés."),
  ("welcome", "👋 Bienvenue"),
  ("commands_available", "🎬 Commandes disponibles :"),
  ("search_anime", "Rechercher un anime"),
  ("search_movie", "Rechercher un film"),
  ("change_footer", "Changer le footer"),
  ("change_language", "Changer la langue"),
  ("show_stats", "Voir les statistiques"),
  ("clear_cache", "Vider le cache"),
  ("show_help", "Affiche cette aide"),
  ("bot_by", "🤖 Bot développé par"),
  ("searching", "🔍 Recherche en cours:"),
  ("no_results", "❌ Aucun résultat trouvé. Essayez un autre titre."),
  ("select_result", "📋 Sélectionnez un résultat :"),
  ("usage", "📝 Usage:"),
  ("example", "Exemple:"),
  ("footer_updated", "✅ Footer mis à jour:"),
  ("current_footer", "Footer actuel:"),
  ("language_updated", "✅ Langue changée en:"),
  ("current_language", "Langue actuelle:"),
  ("cache_cleared", "🗑️ Cache vidé ({count} entrées supprimées)"),
  ("stats", "📊 Statistiques"),
  ("cache", "Cache"),
  ("entries", "entrées"),
  ("users_authorized", "Utilisateurs autorisés"),
  ("environment", "Environnement"),
  ("configured", "✅ Configuré"),
  ("not_configured", "❌ Non configuré"),
  ("time", "🕐 Heure"),
  ("error_sending", "❌ Erreur lors de l'envoi. Réessayez."),
  ("error_unexpected", "❌ Erreur inattendue. Contactez le développeur."),
  ("tmdb_not_configured", "❌ TMDB_API_KEY non configurée."),
  ("anime", "𝗔𝗻𝗶𝗺𝗲"),
  ("film", "𝗙𝗶𝗹𝗺"),
  ("format", "𝗙𝗼𝗿𝗺𝗮𝘁"),
  ("status", "𝗦𝘁𝗮𝘁𝘂𝘁"),
  ("genres", "𝗚𝗲𝗻𝗿𝗲𝘀"),
  ("year", "𝗔𝗻𝗻é𝗲"),
  ("start", "𝗗é𝗯𝘂𝘁"),
  ("end", "𝗙𝗶𝗻"),
  ("studio", "𝗦𝘁𝘂𝗱𝗶𝗼"),
  ("episodes", "𝗘𝗽𝗶𝘀𝗼𝗱𝗲𝘀"),
  ("duration", "𝗗𝘂𝗿é𝗲"),
  ("popularity", "𝗣𝗼𝗽𝘂𝗹𝗮𝗿𝗶𝘁é"),
  ("rating", "𝗡𝗼𝘁𝗲"),
  ("summary", "𝗥𝗲𝘀𝘂𝗺𝗲"),
  ("status_finished", "Terminé"),
  ("status_releasing", "En cours"),
  ("status_upcoming", "À venir"),
  ("status_cancelled", "Annulé"),
  ("status_released", "Sorti"),
  ("no_description", "Aucune description.")
]

/-- The `TRANSLATIONS["en"]` table (`main.py:74-237`). -/
def enTable : List (String × String) := [
  ("access_denied", "⛔ Access denied. Bot reserved for authorized users."),
  ("welcome", "👋 Welcome"),
  ("commands_available", "🎬 Available commands:"),
  ("search_anime", "Search an anime"),
  ("search_movie", "Search a movie"),
  ("change_footer", "Change footer"),
  ("change_language", "Change language"),
  ("show_stats", "View statistics"),
  ("clear_cache", "Clear cache"),
  ("show_help", "Show this help"),
  ("bot_by", "🤖 Bot developed by"),
  ("searching", "🔍 Searching:"),
  ("no_results", "❌ No results found. Try another title."),
  ("select_result", "📋 Select a result:"),
  ("usage", "📝 Usage:"),
  ("example", "Example:"),
  ("footer_updated", "✅ Footer updated:"),
  ("current_footer", "Current footer:"),
  ("language_updated", "✅ Language changed to:"),
  ("current_language", "Current language:"),
  ("cache_cleared", "🗑️ Cache cleared ({count} entries removed)"),
  ("stats", "📊 Statistics"),
  ("cache", "Cache"),
  ("entries", "entries"),
  ("users_authorized", "Authorized users"),
  ("environment", "Environment"),
  ("configured", "✅ Configured"),
  ("not_configured", "❌ Not configured"),
  ("time", "🕐 Time"),
  ("error_sending", "❌ Error sending. Try again."),
  ("error_unexpected", "❌ Unexpected error. Contact developer."),
  ("tmdb_not_configured", "❌ TMDB_API_KEY not configured."),
  ("anime", "𝗔𝗻𝗶𝗺𝗲"),
  ("film", "𝗠𝗼𝘃𝗶𝗲"),
  ("format", "𝗙𝗼𝗿𝗺𝗮𝘁"),
  ("status", "𝗦𝘁𝗮𝘁𝘂𝘀"),
  ("genres", "𝗚𝗲𝗻𝗿𝗲𝘀"),
  ("year", "𝗬𝗲𝗮𝗿"),
  ("start", "𝗦𝘁𝗮𝗿𝘁"),
  ("end", "𝗘𝗻𝗱"),
  ("studio", "𝗦𝘁𝘂𝗱𝗶𝗼"),
  ("episodes", "𝗘𝗽𝗶𝘀𝗼𝗱𝗲𝘀"),
  ("duration", "𝗗𝘂𝗿𝗮𝘁𝗶𝗼𝗻"),
  ("popularity", "𝗣𝗼𝗽𝘂𝗹𝗮𝗿𝗶𝘁𝘆"),
  ("rating", "𝗥𝗮𝘁𝗶𝗻𝗴"),
  ("summary", "𝗦𝘂𝗺𝗺𝗮𝗿𝘆"),
  ("status_finished", "Finished"),
  ("status_releasing", "Releasing"),
  ("status_upcoming", "Upcoming"),
  ("status_cancelled", "Cancelled"),
  ("status_released", "Released"),
  ("no_description", "No description.")
]

/-- The `TRANSLATIONS["es"]` table (`main.py:74-237`). -/
def esTable : List (String × String) := [
  ("access_denied", "⛔ Acceso denegado. Bot reservado para usuarios autorizados."),
  ("welcome", "👋 Bienvenido"),
  ("commands_available", "🎬 Comandos disponibles:"),
  ("search_anime", "Buscar un anime"),
  ("search_movie", "Buscar una película"),
  ("change_footer", "Cambiar pie de página"),
  ("change_language", "Cambiar idioma"),
  ("show_stats", "Ver estadísticas"),
  ("clear_cache", "Limpiar caché"),
  ("show_help", "Mostrar esta ayuda"),
  ("bot_by", "🤖 Bot desarrollado por"),
  ("searching", "🔍 Buscando:"),
  ("no_results", "❌ No se encontraron resultados. Intenta otro título."),
  ("select_result", "📋 Selecciona un resultado:"),
  ("usage", "📝 Uso:"),
  ("example", "Ejemplo:"),
  ("footer_updated", "✅ Pie de página actualizado:"),
  ("current_footer", "Pie de página actual:"),
  ("language_updated", "✅ Idioma cambiado a:"),
  ("current_language", "Idioma actual:"),
  ("cache_cleared", "🗑️ Caché limpiado ({count} entradas eliminadas)"),
  ("stats", "📊 Estadísticas"),
  ("cache", "Caché"),
  ("entries", "entradas"),
  ("users_authorized", "Usuarios autorizados"),
  ("environment", "Entorno"),
  ("configured", "✅ Configurado"),
  ("not_configured", "❌ No configurado"),
  ("time", "🕐 Hora"),
  ("error_sending", "❌ Error al enviar. Inténtalo de nuevo."),
  ("error_unexpected", "❌ Error inesperado. Contacta al desarrollador."),
  ("tmdb_not_configured", "❌ TMDB_API_KEY no configurada."),
  ("anime", "𝗔𝗻𝗶𝗺𝗲"),
  ("film", "𝗣𝗲𝗹í𝗰𝘂𝗹𝗮"),
  ("format", "𝗙𝗼𝗿𝗺𝗮𝘁𝗼"),
  ("status", "𝗘𝘀𝘁𝗮𝗱𝗼"),
  ("genres", "𝗚é𝗻𝗲𝗿𝗼𝘀"),
  ("year", "𝗔ñ𝗼"),
  ("start", "𝗜𝗻𝗶𝗰𝗶𝗼"),
  ("end", "𝗙𝗶𝗻"),
  ("studio", "𝗘𝘀𝘁𝘂𝗱𝗶𝗼"),
  ("episodes", "𝗘𝗽𝗶𝘀𝗼𝗱𝗶𝗼𝘀"),
  ("duration", "𝗗𝘂𝗿𝗮𝗰𝗶ó𝗻"),
  ("popularity", "𝗣𝗼𝗽𝘂𝗹𝗮𝗿𝗶𝗱𝗮𝗱"),
  ("rating", "𝗖𝗮𝗹𝗶𝗳𝗶𝗰𝗮𝗰𝗶ó𝗻"),
  ("summary", "𝗥𝗲𝘀𝘂𝗺𝗲𝗻"),
  ("status_finished", "Terminado"),
  ("status_releasing", "En emisión"),
  ("status_upcoming", "Próximo"),
  ("status_cancelled", "Cancelado"),
  ("status_released", "Estrenado"),
  ("no_description", "Sin descripción.")
]

/-- The `TRANSLATIONS` dictionary: language code to key/template table. -/
def TRANSLATIONS : List (String × List (String × String)) :=
  [(("fr"), frTable), (("en"), enTable), (("es"), esTable)]

/-- `t(key, lang)` (`main.py:327-330`):
`TRANSLATIONS.get(lang, TRANSLATIONS["fr"]).get(key, key)`.  The `**kwargs`
template substitution is applied separately by `formatCount` at the one call
site that passes a keyword argument. -/
def t (key : String) (lang : String) : String :=
  (((TRANSLATIONS.lookup lang).getD frTable).lookup key).getD key

/-- `"{count}".format`-style substitution used by `t("cache_cleared", …,
count=n)`: replaces each occurrence of the placeholder with the number. -/
def formatCountGo (n : ℤ) : Nat → List Char → List Char
  | 0, l => l
  | _ + 1, [] => []
  | fuel + 1, c :: rest =>
    if c = Char.ofNat 123 ∧ rest.take 6 = ['c', 'o', 'u', 'n', 't', Char.ofNat 125] then
      (toString n).data ++ formatCountGo n fuel (rest.drop 6)
    else c :: formatCountGo n fuel rest

/-- Template substitution of `{count}` on strings. -/
def formatCount (s : String) (n : ℤ) : String := String.mk (formatCountGo n s.data.length s.data)

/-- `bold(text)` (`main.py:332-336`): ASCII letters and digits are mapped to
their mathematical sans-serif bold counterparts. -/
def boldChar (c : Char) : Char :=
  if 'A' ≤ c ∧ c ≤ 'Z' then Char.ofNat (0x1D5D4 + (c.toNat - 'A'.toNat))
  else if 'a' ≤ c ∧ c ≤ 'z' then Char.ofNat (0x1D5EE + (c.toNat - 'a'.toNat))
  else if '0' ≤ c ∧ c ≤ '9' then Char.ofNat (0x1D7EC + (c.toNat - '0'.toNat))
  else c

/-- `bold` on strings. -/
def bold (s : String) : String := String.mk (s.data.map boldChar)

/-- `get_flag(country)` (`main.py:338-345`). -/
def get_flag (country : PyV) : String :=
  match country with
  | .str s =>
    (([(("JP"), ("🇯🇵")), (("KR"), ("🇰🇷")), (("CN"), ("🇨🇳")), (("US"), ("🇺🇸")),
       (("FR"), ("🇫🇷")), (("GB"), ("🇬🇧")), (("DE"), ("🇩🇪")), (("ES"), ("🇪🇸")),
       (("IT"), ("🇮🇹")), (("CA"), ("🇨🇦")), (("AU"), ("🇦🇺")), (("IN"), ("🇮🇳"))] :
        List (String × String)).lookup s).getD ("🌐")
  | _ => ("🌐")

/-- `get_genre_emoji(genre)` (`main.py:347-356`). -/
def get_genre_emoji (genre : PyV) : String :=
  match genre with
  | .str s =>
    (([(("Action"), ("🔫")), (("Adventure"), ("🌍")), (("Fantasy"), ("⚔")), (("Drama"), ("🎭")),
       (("Comedy"), ("😂")), (("Sci-Fi"), ("🚀")), (("Horror"), ("👻")), (("Romance"), ("❤️")),
       (("Thriller"), ("😱")), (("Mystery"), ("🔍")), (("Crime"), ("🚔")), (("Animation"), ("🎨")),
       (("Documentary"), ("📹")), (("Family"), ("👨‍👩‍👧")), (("Music"), ("🎵")), (("War"), ("⚔️")),
       (("History"), ("📜")), (("Sport"), ("⚽")), (("Western"), ("🤠"))] :
        List (String × String)).lookup s).getD ("🎬")
  | _ => ("🎬")

/-- Month-name tables of `month_name` (`main.py:358-368`), with the padding
empty string at index 0. -/
def monthTable (lang : String) : List String :=
  if lang = ("fr") then
    [(""), ("janvier"), ("février"), ("mars"), ("avril"), ("mai"), ("juin"),
     ("juillet"), ("août"), ("septembre"), ("octobre"), ("novembre"), ("décembre")]
  else if lang = ("en") then
    [(""), ("January"), ("February"), ("March"), ("April"), ("May"), ("June"),
     ("July"), ("August"), ("September"), ("October"), ("November"), ("December")]
  else if lang = ("es") then
    [(""), ("enero"), ("febrero"), ("marzo"), ("abril"), ("mayo"), ("junio"),
     ("julio"), ("agosto"), ("septiembre"), ("octubre"), ("noviembre"), ("diciembre")]
  else
    [(""), ("janvier"), ("février"), ("mars"), ("avril"), ("mai"), ("juin"),
     ("juillet"), ("août"), ("septembre"), ("octobre"), ("novembre"), ("décembre")]

/-- `month_name(m, lang)`: the month's localized name for `1 ≤ m ≤ 12`, the
unknown sentinel otherwise. -/
def month_name (m : ℤ) (lang : String) : String :=
  if 1 ≤ m ∧ m ≤ 12 then (monthTable lang).getD m.toNat ("") else ("?")

/-- Python `str.title()` (ASCII model): the first letter of each
letter-run is upper-cased, the rest lower-cased. -/
def pyTitleGo : Bool → List Char → List Char
  | _, [] => []
  | prevAlpha, c :: rest =>
    (if c.isAlpha then (if prevAlpha then c.toLower else c.toUpper) else c) ::
      pyTitleGo c.isAlpha rest

/-- `s.title()` on strings. -/
def pyTitle (s : String) : String := String.mk (pyTitleGo false s.data)

/-- `s.replace("_", " ")`: a single-character replace, as a character map. -/
def replaceUnderscore (s : String) : String :=
  String.mk (s.data.map (fun c => if c = '_' then ' ' else c))

/-- The anime star-rating expression (`main.py:493-494`):
`"★" * (score // 20) + "☆" * (5 - score // 20) if score else "?"`.
A falsy score (`None` or `0`) renders the sentinel; a truthy non-`int`
raises (`Option.none`): Python cannot multiply a string by a float. -/
def anime_rating (score : PyV) : Option String :=
  if score.truthy then
    match score with
    | .int s =>
      some (String.mk (List.replicate (Int.fdiv s 20).toNat '★' ++
                       List.replicate (5 - Int.fdiv s 20).toNat '☆'))
    | _ => Option.none
  else some ("?")

/-- The movie star-rating expression (`main.py:528-529`):
`"★" * int(vote // 2) + "☆" * (5 - int(vote // 2)) if vote >= 1 else "?"`.
A non-numeric vote raises on the `>=` comparison. -/
def movie_rating (vote : PyV) : Option String :=
  match vote with
  | .int v =>
    some (if 1 ≤ v then
            String.mk (List.replicate (Int.fdiv v 2).toNat '★' ++
                       List.replicate (5 - Int.fdiv v 2).toNat '☆')
          else ("?"))
  | .rat q =>
    some (if 1 ≤ q then
            String.mk (List.replicate (⌊q / 2⌋).toNat '★' ++
                       List.replicate (5 - ⌊q / 2⌋).toNat '☆')
          else ("?"))
  | _ => Option.none

/-- The synopsis field as both formatters build it (`main.py:496,531`):
`sanitize_text(raw) or t("no_description", lang)`. -/
def desc_or_placeholder (x : String) (lang : String) : String :=
  let d := sanitize_text x
  if d = ("") then t ("no_description") lang else d

/-- `" / ".join(l)` on Python values: raises unless every element is a
string. -/
def joinPyStrs (sep : String) (l : List PyV) : Option String := do
  let strs ← l.mapM (fun v => match v with | .str s => some s | _ => Option.none)
  pure (String.intercalate sep strs)

/-- The date string of `format_anime` (`main.py:486-487`):
day, localized month name, year when the year is truthy, else the
sentinel. -/
def dateStr (d : PyV) (lang : String) : Option String := do
  let yc ← dGet d ("year") .none
  if yc.truthy then
    let day ← dGet d ("day") (.str ("?"))
    let mv ← dGet d ("month") .none
    let mname ← match pyOrV mv (.int 0) with
      | .int m => some (month_name m lang)
      | _ => Option.none
    let yv ← dGet d ("year") (.str ("?"))
    pure (day.pyStr ++ (" ") ++ mname ++ (" ") ++ yv.pyStr)
  else pure ("?")

/-- The intermediate values computed by `format_anime` (`main.py:466-496`),
in source order. -/
structure AnimeFields where
  flag : String
  main : PyV
  alt_str : String
  fmt : String
  status : String
  genres : String
  yearV : PyV
  start_str : String
  end_str : String
  studio : String
  episodes : PyV
  duration : String
  popularity : String
  rating : String
  score : PyV
  desc : String

/-- `format_anime`, lines 468-472: flag, main title, alternate titles. -/
def anime_head_fields (data : PyV) : Option (String × PyV × String) := do
  let country ← dGet data ("countryOfOrigin") (.str ("JP"))
  let flag := get_flag country
  let titles ← pyItem data ("title")
  let romaji ← dGet titles ("romaji") .none
  let english ← dGet titles ("english") .none
  let native ← dGet titles ("native") .none
  let main := pyOrV romaji (pyOrV english (.str ("???")))
  let alts := pyDedup (([english, native]).filter PyV.truthy)
  let alt_str ← (if alts.isEmpty then pure ("") else joinPyStrs (" / ") (alts.take 2))
  pure (flag, main, alt_str)

/-- `format_anime`, lines 474-482: format, status, genre decoration. -/
def anime_meta_fields (data : PyV) (lang : String) : Option (String × String × String) := do
  let fmtV ← dGet data ("format") (.str ("?"))
  let fmt ← (match fmtV with
    | .str s => some (pyTitle (replaceUnderscore s))
    | _ => Option.none)
  let statusV ← dGet data ("status") (.str ("?"))
  let status := (match statusV with
    | .str s =>
      (([(("FINISHED"), t ("status_finished") lang),
         (("RELEASING"), t ("status_releasing") lang),
         (("NOT_YET_RELEASED"), t ("status_upcoming") lang),
         (("CANCELLED"), t ("status_cancelled") lang)] :
          List (String × String)).lookup s).getD statusV.pyStr
    | v => v.pyStr)
  let genresV ← dGet data ("genres") (.listV [])
  let gl ← (do let sl ← pySlice genresV 4; toIterList sl)
  let genres :=
    let j := String.intercalate (" / ")
      (gl.map (fun g => get_genre_emoji g ++ (" ") ++ g.pyStr))
    if j = ("") then ("?") else j
  pure (fmt, status, genres)

/-- `format_anime`, lines 484-489: dates, year field and studio. -/
def anime_date_fields (data : PyV) (lang : String) : Option (PyV × String × String × String) := do
  let startD ← dGet data ("startDate") (.dictV [])
  let endD ← dGet data ("endDate") (.dictV [])
  let start_str ← dateStr startD lang
  let end_str ← dateStr endD lang
  let sv ← dGet data ("studios") (.dictV [])
  let nodes ← dGet sv ("nodes") .none
  let studio ← (if nodes.truthy then (do
      let s1 ← pyItem data ("studios")
      let n1 ← pyItem s1 ("nodes")
      let n0 ← pyIndex n1 0
      let nm ← pyItem n0 ("name")
      pure nm.pyStr)
    else pure ("?"))
  let yearV ← dGet startD ("year") (.str ("?"))
  pure (yearV, start_str, end_str, studio)

/-- `format_anime`, lines 490-496: episodes, duration, popularity, rating
and synopsis. -/
def anime_tail_fields (data : PyV) (lang : String) :
    Option (PyV × String × String × String × PyV × String) := do
  let episodes ← dGet data ("episodes") (.str ("?"))
  let durV ← dGet data ("duration") (.str ("?"))
  let duration := durV.pyStr ++ (" min/ép")
  let popV ← dGet data ("popularity") (.str ("?"))
  let popularity := ("#") ++ popV.pyStr
  let score ← dGet data ("averageScore") .none
  let rating ← anime_rating score
  let descV ← dGet data ("description") (.str (""))
  let descS ← (match descV with | .str s => some s | _ => Option.none)
  let desc := desc_or_placeholder descS lang
  pure (episodes, duration, popularity, rating, score, desc)

/-- The field computations of `format_anime`; `Option.none` models a raise
inside the caller's `try` block. -/
def anime_fields (data : PyV) (lang : String) : Option AnimeFields := do
  let h ← anime_head_fields data
  let m ← anime_meta_fields data lang
  let d ← anime_date_fields data lang
  let u ← anime_tail_fields data lang
  pure { flag := h.1, main := h.2.1, alt_str := h.2.2,
         fmt := m.1, status := m.2.1, genres := m.2.2,
         yearV := d.1, start_str := d.2.1, end_str := d.2.2.1, studio := d.2.2.2,
         episodes := u.1, duration := u.2.1, popularity := u.2.2.1,
         rating := u.2.2.2.1, score := u.2.2.2.2.1, desc := u.2.2.2.2.2 }

/-- The f-string template of `format_anime` (`main.py:498-519`). -/
def anime_render (p : AnimeFields) (lang footer : String) : String :=
  p.flag ++ (" ") ++ bold (t ("anime") lang) ++ (": ") ++ p.main.pyStr ++ ("\n") ++
  p.alt_str ++ ("\n\n☾ ") ++
  bold (t ("format") lang) ++ (": ") ++ p.fmt ++ ("\n☾ ") ++
  bold (t ("status") lang) ++ (": ") ++ p.status ++ ("\n☾ ") ++
  bold (t ("genres") lang) ++ (": ") ++ p.genres ++ ("\n\n☾ ") ++
  bold (t ("year") lang) ++ (": ") ++ p.yearV.pyStr ++ ("\n☾ ") ++
  bold (t ("start") lang) ++ (": ") ++ p.start_str ++ ("\n☾ ") ++
  bold (t ("end") lang) ++ (": ") ++ p.end_str ++ ("\n☾ ") ++
  bold (t ("studio") lang) ++ (": ") ++ p.studio ++ ("\n☾ ") ++
  bold (t ("episodes") lang) ++ (": ") ++ p.episodes.pyStr ++ ("\n☾ ") ++
  bold (t ("duration") lang) ++ (": ") ++ p.duration ++ ("\n☾ ") ++
  bold (t ("popularity") lang) ++ (": ") ++ p.popularity ++ ("\n☾ ") ++
  bold (t ("rating") lang) ++ (": ") ++ p.rating ++ (" (") ++ p.score.pyStr ++ ("/100)") ++
  ("\n\n╔═══『 ✦ 』═══╗\n    ") ++ footer ++ ("\n╚═══『 ✦ 』═══╝\n\n") ++
  bold (t ("summary") lang) ++ (":\n") ++ p.desc

/-- `format_anime(data, lang, footer)` (`main.py:466-519`). -/
def format_anime (data : PyV) (lang footer : String) : Option String :=
  (anime_fields data lang).map (fun p => anime_render p lang footer)

/-- The intermediate values computed by `format_movie` (`main.py:521-531`). -/
structure MovieFields where
  titleV : PyV
  year : PyV
  genres : String
  runtime : String
  popularity : String
  rating : String
  vote : PyV
  desc : String

/-- The field computations of `format_movie`. -/
def movie_fields (data : PyV) (lang : String) : Option MovieFields := do
  let release ← dGet data ("release_date") (.str (""))
  let year ← if release.truthy then pySlice release 4 else pure (PyV.str ("?"))
  let genresV ← dGet data ("genres") (.listV [])
  let gl ← (do let sl ← pySlice genresV 4; toIterList sl)
  let parts ← gl.mapM (fun g => do
    let nm ← pyItem g ("name")
    pure (get_genre_emoji nm ++ (" ") ++ nm.pyStr))
  let genres :=
    let j := String.intercalate (" / ") parts
    if j = ("") then ("?") else j
  let rc ← dGet data ("runtime") .none
  let runtime ← if rc.truthy then do
      let rv ← dGet data ("runtime") (.str ("?"))
      pure (rv.pyStr ++ (" min"))
    else pure ("?")
  let pc ← dGet data ("popularity") .none
  let popularity ← if pc.truthy then do
      let pv ← dGet data ("popularity") (.int 0)
      let n ← pyInt pv
      pure (("#") ++ toString n)
    else pure ("?")
  let vote ← dGet data ("vote_average") (.int 0)
  let rating ← movie_rating vote
  let ov ← dGet data ("overview") (.str (""))
  let ovS ← match ov with | .str s => some s | _ => Option.none
  let desc := desc_or_placeholder ovS lang
  let titleV ← dGet data ("title") (.str ("???"))
  pure { titleV, year, genres, runtime, popularity, rating, vote, desc }

/-- The part of `format_movie`'s template (`main.py:533-535`) that precedes
the released-status label. -/
def movie_render_pre (p : MovieFields) (lang : String) : String :=
  ("🇺🇸 ") ++ bold (t ("film") lang) ++ (": ") ++ p.titleV.pyStr ++ ("\n\n☾ ") ++
  bold (t ("status") lang) ++ (": ")

/-- The part of `format_movie`'s template (`main.py:536-548`) that follows
the released-status label. -/
def movie_render_post (p : MovieFields) (lang footer : String) : String :=
  ("\n☾ ") ++
  bold (t ("genres") lang) ++ (": ") ++ p.genres ++ ("\n\n☾ ") ++
  bold (t ("year") lang) ++ (": ") ++ p.year.pyStr ++ ("\n☾ ") ++
  bold (t ("duration") lang) ++ (": ") ++ p.runtime ++ ("\n☾ ") ++
  bold (t ("popularity") lang) ++ (": ") ++ p.popularity ++ ("\n☾ ") ++
  bold (t ("rating") lang) ++ (": ") ++ p.rating ++ (" (") ++ p.vote.pyStr ++ ("/10)") ++
  ("\n\n╔═══『 ✦ 』═══╗\n    ") ++ footer ++ ("\n╚═══『 ✦ 』═══╝\n\n") ++
  bold (t ("summary") lang) ++ (":\n") ++ p.desc

/-- `format_movie(data, lang, footer)` (`main.py:521-548`).  The status line
interpolates the localized `status_released` label (`main.py:535`)
irrespective of the record. -/
def format_movie (data : PyV) (lang footer : String) : Option String :=
  (movie_fields data lang).map (fun p =>
    movie_render_pre p lang ++ (t ("status_released") lang ++ movie_render_post p lang footer))

/-- `title.lower()` (ASCII model, as the keys under test). -/
def pyLower (s : String) : String := String.mk (s.data.map Char.toLower)

/-- The anime search cache key (`main.py:382`):
`f"anime_search:{title.lower()}"`. -/
def anime_search_key (title : String) : String := ("anime_search:") ++ pyLower title

/-- The movie search cache key (`main.py:422`):
`f"movie_search:{title.lower()}"`. -/
def movie_search_key (title : String) : String := ("movie_search:") ++ pyLower title

/-- The movie detail cache key (`main.py:447`):
`f"movie_details:{movie_id}"`. -/
def movie_details_key (movie_id : ℤ) : String := ("movie_details:") ++ toString movie_id

/-- The in-memory `_cache` dictionary: string key to raw payload. -/
abbrev Cache := List (String × PyV)

/-- Dictionary assignment `_cache[k] = v`. -/
def cacheSet (c : Cache) (k : String) (v : PyV) : Cache :=
  if (c.lookup k).isSome then c.map (fun e => if e.1 == k then (e.1, v) else e)
  else c ++ [(k, v)]

/-- The outcome of one outbound HTTP exchange: a timeout, a non-success
status (`raise_for_status`), a body that fails to decode, or a decoded
JSON body. -/
inductive Upstream where
  | timeout
  | httpError
  | malformed
  | ok (body : PyV)

/-- Result of a provider-adapter call: the value returned to the caller
(`Option.none` is Python `None`), the cache afterwards, and whether an
outbound request was attempted. -/
structure FetchOut where
  result : Option PyV
  cache : Cache
  net : Bool

/-- The extraction chain of `search_anime` (`main.py:408`):
`r.json().get("data", {}).get("Page", {}).get("media", [])`. -/
def extract_anime_results (body : PyV) : Option PyV := do
  let a ← dGet body ("data") (.dictV [])
  let b ← dGet a ("Page") (.dictV [])
  dGet b ("media") (.listV [])

/-- `search_anime(title)` (`main.py:380-415`): cache hit short-circuits
before any request; a non-empty extracted result list is cached; errors and
falsy results are not. -/
def search_anime (title : String) (cache : Cache) (up : Upstream) : FetchOut :=
  let key := anime_search_key title
  match cache.lookup key with
  | some v => ⟨some v, cache, false⟩
  | Option.none =>
    match up with
    | .ok body =>
      match extract_anime_results body with
      | some results =>
        if results.truthy then ⟨some results, cacheSet cache key results, true⟩
        else ⟨some results, cache, true⟩
      | Option.none => ⟨Option.none, cache, true⟩
    | _ => ⟨Option.none, cache, true⟩

/-- The extraction chain of `search_movie` (`main.py:434`):
`search.json().get("results", [])[:5]`. -/
def extract_movie_results (body : PyV) : Option PyV := do
  let r ← dGet body ("results") (.listV [])
  pySlice r 5

/-- `search_movie(title)` (`main.py:417-443`); `tmdb` is whether
`TMDB_API_KEY` is configured (checked before the cache). -/
def search_movie (tmdb : Bool) (title : String) (cache : Cache) (up : Upstream) : FetchOut :=
  if tmdb then
    let key := movie_search_key title
    match cache.lookup key with
    | some v => ⟨some v, cache, false⟩
    | Option.none =>
      match up with
      | .ok body =>
        match extract_movie_results body with
        | some results =>
          if results.truthy then ⟨some results, cacheSet cache key results, true⟩
          else ⟨some results, cache, true⟩
        | Option.none => ⟨Option.none, cache, true⟩
      | _ => ⟨Option.none, cache, true⟩
  else ⟨Option.none, cache, false⟩

/-- `get_movie_details(movie_id)` (`main.py:445-463`): a decoded body is
cached unconditionally (`main.py:458-459`); failures leave the cache
alone. -/
def get_movie_details (movie_id : ℤ) (cache : Cache) (up : Upstream) : FetchOut :=
  let key := movie_details_key movie_id
  match cache.lookup key with
  | some v => ⟨some v, cache, false⟩
  | Option.none =>
    match up with
    | .ok body => ⟨some body, cacheSet cache key body, true⟩
    | _ => ⟨Option.none, cache, true⟩

/-- A row of the `user_settings` table. -/
structure UserSettings where
  language : String
  footer : String
  deriving DecidableEq

/-- The table defaults (`main.py:248-250`). -/
def defaultSettings : UserSettings := { language := ("fr"), footer := ("@WorldZPrime") }

/-- The `user_settings` table, keyed by user id. -/
abbrev Store := List (ℤ × UserSettings)

/-- `get_user_settings(user_id)` (`main.py:273-288`): returns the stored
row, or inserts the default row and returns the defaults. -/
def get_user_settings (uid : ℤ) (s : Store) : UserSettings × Store :=
  match s.lookup uid with
  | some u => (u, s)
  | Option.none => (defaultSettings, s ++ [(uid, defaultSettings)])

/-- `update_user_language(user_id, language)` (`main.py:290-298`): an
upsert by primary key. -/
def update_user_language (uid : ℤ) (lang : String) (s : Store) : Store :=
  if (s.lookup uid).isSome then
    s.map (fun r => if r.1 == uid then (r.1, { r.2 with language := lang }) else r)
  else s ++ [(uid, { defaultSettings with language := lang })]

/-- `update_user_footer(user_id, footer)` (`main.py:300-308`). -/
def update_user_footer (uid : ℤ) (footer : String) (s : Store) : Store :=
  if (s.lookup uid).isSome then
    s.map (fun r => if r.1 == uid then (r.1, { r.2 with footer := footer }) else r)
  else s ++ [(uid, { defaultSettings with footer := footer })]

/-- The `global_stats` table. -/
abbrev Stats := List (String × ℤ)

/-- `increment_stat(key)` (`main.py:310-318`). -/
def increment_stat (key : String) (st : Stats) : Stats :=
  if (st.lookup key).isSome then
    st.map (fun r => if r.1 == key then (r.1, r.2 + 1) else r)
  else st ++ [(key, 1)]

/-- A pending-selection entry in `context.user_data`: the anime flow stores
`{"results": …, "settings": …}`, the movie flow stores the settings. -/
inductive UDVal where
  | animeP (results : PyV) (settings : UserSettings)
  | movieS (settings : UserSettings)

/-- Assignment into `context.user_data`. -/
def udSet (ud : List (String × UDVal)) (k : String) (v : UDVal) : List (String × UDVal) :=
  if (ud.lookup k).isSome then ud.map (fun e => if e.1 == k then (e.1, v) else e)
  else ud ++ [(k, v)]

/-- `del context.user_data[k]`. -/
def udErase (ud : List (String × UDVal)) (k : String) : List (String × UDVal) :=
  ud.filter (fun e => !(e.1 == k))

/-- The mutable state every handler touches: the response cache, the
`user_settings` and `global_stats` tables, and the pending-selection map. -/
structure World where
  cache : Cache
  store : Store
  stats : Stats
  userData : List (String × UDVal)

/-- A handler run: the texts surfaced to the caller in order (the photo
versus text delivery form is not modelled), the state afterwards, and the
number of provider calls attempted. -/
structure HOut where
  msgs : List String
  w : World
  net : ℕ

/-- The welcome text of `/start` (`main.py:562-573`). -/
def welcome_text (lang footer : String) : String :=
  t ("welcome") lang ++ (" !\n\n") ++ t ("commands_available") lang ++ ("\n") ++
  ("/anime <titre> - ") ++ t ("search_anime") lang ++ ("\n") ++
  ("/movie <titre> - ") ++ t ("search_movie") lang ++ ("\n") ++
  ("/setfooter <texte> - ") ++ t ("change_footer") lang ++ ("\n") ++
  ("/setlang <fr|en|es> - ") ++ t ("change_language") lang ++ ("\n") ++
  ("/stats - ") ++ t ("show_stats") lang ++ ("\n") ++
  ("/clearcache - ") ++ t ("clear_cache") lang ++ ("\n") ++
  ("/help - ") ++ t ("show_help") lang ++ ("\n\n") ++
  t ("bot_by") lang ++ (" ") ++ footer

/-- `/start` (`main.py:551-576`): an unauthorized caller gets the
French-default access-denied text and nothing else happens; an authorized
caller's settings are resolved (lazily creating the default row) and the
welcome text is sent. -/
def start (auth : List ℤ) (uid : ℤ) (w : World) : HOut :=
  if uid ∈ auth then
    let p := get_user_settings uid w.store
    { msgs := [welcome_text p.1.language p.1.footer], w := { w with store := p.2 }, net := 0 }
  else { msgs := [t ("access_denied") ("fr")], w := w, net := 0 }

/-- `/help` (`main.py:578-582`): silently ignores unauthorized callers,
otherwise delegates to `/start`. -/
def help_command (auth : List ℤ) (uid : ℤ) (w : World) : HOut :=
  if uid ∈ auth then start auth uid w else { msgs := [], w := w, net := 0 }

/-- The `/stats` text (`main.py:594-602`); the wall-clock timestamp is the
`now` parameter. -/
def stats_text (lang : String) (cacheCount authCount : ℕ) (envName : String)
    (tmdb : Bool) (total : ℤ) (now : String) : String :=
  t ("stats") lang ++ ("\n\n• ") ++ t ("cache") lang ++ (": ") ++ toString cacheCount ++
  (" ") ++ t ("entries") lang ++
  ("\n• ") ++ t ("users_authorized") lang ++ (": ") ++ toString authCount ++
  ("\n• ") ++ t ("environment") lang ++ (": ") ++ envName ++
  ("\n• TMDB: ") ++ (if tmdb then t ("configured") lang else t ("not_configured") lang) ++
  ("\n• Total recherches: ") ++ toString total ++
  ("\n\n") ++ t ("time") lang ++ (": ") ++ now

/-- `/stats` (`main.py:584-604`). -/
def stats_command (auth : List ℤ) (uid : ℤ) (envName : String) (tmdb : Bool)
    (now : String) (w : World) : HOut :=
  if uid ∈ auth then
    let p := get_user_settings uid w.store
    let total := (w.stats.lookup ("total_searches")).getD 0
    { msgs := [stats_text p.1.language w.cache.length auth.length envName tmdb total now],
      w := { w with store := p.2 }, net := 0 }
  else { msgs := [], w := w, net := 0 }

/-- `/clearcache` (`main.py:606-618`). -/
def clear_cache (auth : List ℤ) (uid : ℤ) (w : World) : HOut :=
  if uid ∈ auth then
    let p := get_user_settings uid w.store
    let count : ℤ := w.cache.length
    { msgs := [formatCount (t ("cache_cleared") p.1.language) count],
      w := { w with store := p.2, cache := [] }, net := 0 }
  else { msgs := [], w := w, net := 0 }

/-- `/setfooter` (`main.py:620-637`). -/
def set_footer (auth : List ℤ) (uid : ℤ) (args : List String) (w : World) : HOut :=
  if uid ∈ auth then
    let p := get_user_settings uid w.store
    let lang := p.1.language
    match args with
    | [] =>
      { msgs := [t ("usage") lang ++ (" /setfooter <nouveau footer>\n\n") ++
                 t ("current_footer") lang ++ (" ") ++ p.1.footer],
        w := { w with store := p.2 }, net := 0 }
    | _ =>
      let newFooter := String.intercalate (" ") args
      { msgs := [t ("footer_updated") lang ++ ("\n") ++ newFooter],
        w := { w with store := update_user_footer uid newFooter p.2 }, net := 0 }
  else { msgs := [], w := w, net := 0 }

/-- The `/setlang` usage hint (`main.py:648-651`), in the caller's current
language. -/
def setlang_usage (cl : String) : String :=
  t ("usage") cl ++ (" /setlang <fr|en|es>\n\n") ++ t ("current_language") cl ++ (" ") ++ cl

/-- The `lang_names` display names (`main.py:657`). -/
def langName (code : String) : String :=
  if code = ("fr") then ("Français")
  else if code = ("en") then ("English")
  else ("Español")

/-- `/setlang` (`main.py:639-661`): a missing or unsupported code gets the
usage hint; a valid code is upserted for the caller. -/
def set_language (auth : List ℤ) (uid : ℤ) (args : List String) (w : World) : HOut :=
  if uid ∈ auth then
    let p := get_user_settings uid w.store
    let cl := p.1.language
    match args with
    | [] => { msgs := [setlang_usage cl], w := { w with store := p.2 }, net := 0 }
    | code :: _ =>
      if code = ("fr") ∨ code = ("en") ∨ code = ("es") then
        { msgs := [t ("language_updated") code ++ (" ") ++ langName code],
          w := { w with store := update_user_language uid code p.2 }, net := 0 }
      else { msgs := [setlang_usage cl], w := { w with store := p.2 }, net := 0 }
  else { msgs := [], w := w, net := 0 }

/-- The `/anime` usage hint (`main.py:672-674`). -/
def anime_usage (lang : String) : String :=
  t ("usage") lang ++ (" /anime <titre>\n\n") ++ t ("example") lang ++ (" /anime Naruto")

/-- The selection-keyboard build of `/anime` (`main.py:703-712`); only its
raise behaviour matters downstream, the button labels are returned. -/
def buildAnimeButtons (results : PyV) : Option (List String) := do
  let l ← toIterList results
  l.mapM (fun r => do
    let titles ← pyItem r ("title")
    let romaji ← dGet titles ("romaji") .none
    let english ← dGet titles ("english") .none
    let main := pyOrV romaji (pyOrV english (.str ("???")))
    let sd ← dGet r ("startDate") (.dictV [])
    let y ← dGet sd ("year") (.str ("?"))
    pure (String.mk ((main.pyStr ++ (" (") ++ y.pyStr ++ (")")).data.take 60)))

/-- The numbered selection prompt of `/anime` (`main.py:722-726`). -/
def animeSelectText (results : PyV) (lang : String) : Option String := do
  let l ← toIterList results
  let lines ← (l.enum).mapM (fun pr => do
    let ti ← pyItem pr.2 ("title")
    let ro ← dGet ti ("romaji") (.str ("???"))
    pure (toString (pr.1 + 1) ++ (". ") ++ ro.pyStr))
  pure (t ("select_result") lang ++ ("\n\n") ++ String.intercalate ("\n") lines)

/-- The single-result display path of `/anime` (`main.py:689-699`):
formatting plus the cover-image extraction, either of which can raise. -/
def animeSingleResult (results : PyV) (lang footer : String) : Option String := do
  let r0 ← pyIndex results 0
  let fmt ← format_anime r0 lang footer
  let ci ← dGet r0 ("coverImage") (.dictV [])
  let _ ← dGet ci ("large") .none
  pure fmt

/-- `/anime` (`main.py:663-733`). -/
def anime_command (auth : List ℤ) (uid : ℤ) (args : List String) (up : Upstream)
    (w : World) : HOut :=
  if uid ∈ auth then
    let p := get_user_settings uid w.store
    let lang := p.1.language
    let w1 : World := { w with store := p.2 }
    match args with
    | [] => { msgs := [anime_usage lang], w := w1, net := 0 }
    | _ =>
      let title := String.intercalate (" ") args
      let searching := t ("searching") lang ++ (" ") ++ title ++ ("...")
      let f := search_anime title w1.cache up
      let n := if f.net then 1 else 0
      let w2 : World := { w1 with cache := f.cache }
      match f.result with
      | Option.none => { msgs := [searching, t ("no_results") lang], w := w2, net := n }
      | some results =>
        if results.truthy then
          let w3 : World := { w2 with stats := increment_stat ("total_searches") w2.stats }
          match pyLen results with
          | some 1 =>
            match animeSingleResult results lang p.1.footer with
            | some fmt => { msgs := [searching, fmt], w := w3, net := n }
            | Option.none => { msgs := [searching, t ("error_unexpected") lang], w := w3, net := n }
          | some _ =>
            match buildAnimeButtons results with
            | Option.none => { msgs := [searching, t ("error_unexpected") lang], w := w3, net := n }
            | some _ =>
              let key := ("anime_results_") ++ toString uid
              let w4 : World := { w3 with userData := udSet w3.userData key (.animeP results p.1) }
              match animeSelectText results lang with
              | some sel => { msgs := [searching, sel], w := w4, net := n }
              | Option.none => { msgs := [searching, t ("error_unexpected") lang], w := w4, net := n }
          | Option.none => { msgs := [searching, t ("error_unexpected") lang], w := w3, net := n }
        else { msgs := [searching, t ("no_results") lang], w := w2, net := n }
  else { msgs := [], w := w, net := 0 }

/-- The `/movie` usage hint (`main.py:744-746`). -/
def movie_usage (lang : String) : String :=
  t ("usage") lang ++ (" /movie <titre>\n\n") ++ t ("example") lang ++ (" /movie Inception")

/-- The selection-keyboard build of `/movie` (`main.py:782-790`), including
the strict `result['id']` access of the callback payload. -/
def buildMovieButtons (results : PyV) : Option (List String) := do
  let l ← toIterList results
  l.mapM (fun r => do
    let titleV ← dGet r ("title") (.str ("???"))
    let rel ← dGet r ("release_date") (.str (""))
    let year ← (if rel.truthy then (do let sl ← pySlice rel 4; pure sl.pyStr) else pure ("?"))
    let _ ← pyItem r ("id")
    pure (String.mk ((titleV.pyStr ++ (" (") ++ year ++ (")")).data.take 60)))

/-- The numbered selection prompt of `/movie` (`main.py:797-801`). -/
def movieSelectText (results : PyV) (lang : String) : Option String := do
  let l ← toIterList results
  let lines ← (l.enum).mapM (fun pr => do
    let ti ← dGet pr.2 ("title") (.str ("???"))
    pure (toString (pr.1 + 1) ++ (". ") ++ ti.pyStr))
  pure (t ("select_result") lang ++ ("\n\n") ++ String.intercalate ("\n") lines)

/-- The numeric id of `results[0]["id"]` in `/movie`'s single-result path
(`main.py:766`). -/
def movieFirstId (results : PyV) : Option ℤ := do
  let r0 ← pyIndex results 0
  let idv ← pyItem r0 ("id")
  match idv with
  | PyV.int m => some m
  | _ => Option.none

/-- The formatted text plus poster extraction of the movie display path
(`main.py:768-770` and `main.py:865-867`). -/
def movieDisplay (d : PyV) (lang footer : String) : Option String := do
  let fmt ← format_movie d lang footer
  let _ ← dGet d ("poster_path") .none
  pure fmt

/-- `/movie` (`main.py:735-808`).  `upS` answers the search request, `upD`
the detail request of the single-result path; a falsy detail payload leaves
the placeholder message with no further reply (`main.py:766-779`). -/
def movie_command (auth : List ℤ) (uid : ℤ) (tmdb : Bool) (args : List String)
    (upS upD : Upstream) (w : World) : HOut :=
  if uid ∈ auth then
    let p := get_user_settings uid w.store
    let lang := p.1.language
    let w1 : World := { w with store := p.2 }
    match args with
    | [] => { msgs := [movie_usage lang], w := w1, net := 0 }
    | _ =>
      if tmdb then
        let title := String.intercalate (" ") args
        let searching := t ("searching") lang ++ (" ") ++ title ++ ("...")
        let f := search_movie tmdb title w1.cache upS
        let n := if f.net then 1 else 0
        let w2 : World := { w1 with cache := f.cache }
        match f.result with
        | Option.none => { msgs := [searching, t ("no_results") lang], w := w2, net := n }
        | some results =>
          if results.truthy then
            let w3 : World := { w2 with stats := increment_stat ("total_searches") w2.stats }
            match pyLen results with
            | some 1 =>
              match movieFirstId results with
              | Option.none => { msgs := [searching, t ("error_unexpected") lang], w := w3, net := n }
              | some mid =>
                let g := get_movie_details mid w3.cache upD
                let n2 := n + (if g.net then 1 else 0)
                let w4 : World := { w3 with cache := g.cache }
                match g.result with
                | some d =>
                  if d.truthy then
                    match movieDisplay d lang p.1.footer with
                    | some fmt => { msgs := [searching, fmt], w := w4, net := n2 }
                    | Option.none => { msgs := [searching, t ("error_unexpected") lang], w := w4, net := n2 }
                  else { msgs := [searching], w := w4, net := n2 }
                | Option.none => { msgs := [searching], w := w4, net := n2 }
            | some _ =>
              match buildMovieButtons results with
              | Option.none => { msgs := [searching, t ("error_unexpected") lang], w := w3, net := n }
              | some _ =>
                let key := ("movie_settings_") ++ toString uid
                let w4 : World := { w3 with userData := udSet w3.userData key (.movieS p.1) }
                match movieSelectText results lang with
                | some sel => { msgs := [searching, sel], w := w4, net := n }
                | Option.none => { msgs := [searching, t ("error_unexpected") lang], w := w4, net := n }
            | Option.none => { msgs := [searching, t ("error_unexpected") lang], w := w3, net := n }
          else { msgs := [searching, t ("no_results") lang], w := w2, net := n }
      else { msgs := [t ("tmdb_not_configured") lang], w := w1, net := 0 }
  else { msgs := [], w := w, net := 0 }

/-- The hard-coded French session-expired reply (`main.py:829,855`). -/
def expiredMsgFr : String := ("❌ Session expirée. Relancez la recherche.")

/-- The hard-coded French detail-failure reply (`main.py:862`). -/
def detailsErrorFr : String := ("❌ Erreur lors de la récupération des détails.")

/-- The hard-coded French unexpected-error reply (`main.py:882`). -/
def unexpectedErrorFr : String := ("❌ Erreur inattendue.")

/-- A parsed callback token `f"{media}_{arg}_{uid}"`: the media tag, the
selection index (anime) or movie id (movie), and the initiating user id. -/
structure CbData where
  media : String
  arg : ℤ
  uid : ℤ

/-- The anime selection path of `button_callback` (`main.py:832-845`):
index the stored results (Python indexing, so negative wrap-around),
format, and extract the cover image; any raise is reported upstream. -/
def anime_pick (results : PyV) (idx : ℤ) (settings : UserSettings) : Option String := do
  let r ← pyIndex results idx
  let fmt ← format_anime r settings.language settings.footer
  let ci ← dGet r ("coverImage") (.dictV [])
  let _ ← dGet ci ("large") .none
  pure fmt

/-- `button_callback` (`main.py:810-882`).  A press by a user other than
the token's initiator returns with no reply and no state change; a missing
pending entry yields the fixed French session-expired text; a successful
selection deletes the pending entry. -/
def button_callback (cb : CbData) (fromUser : ℤ) (upD : Upstream) (w : World) : HOut :=
  if fromUser ≠ cb.uid then { msgs := [], w := w, net := 0 }
  else if cb.media = ("anime") then
    let key := ("anime_results_") ++ toString cb.uid
    match w.userData.lookup key with
    | Option.none => { msgs := [expiredMsgFr], w := w, net := 0 }
    | some (.animeP results settings) =>
      match anime_pick results cb.arg settings with
      | some fmt => { msgs := [fmt], w := { w with userData := udErase w.userData key }, net := 0 }
      | Option.none => { msgs := [unexpectedErrorFr], w := w, net := 0 }
    | some (.movieS _) => { msgs := [unexpectedErrorFr], w := w, net := 0 }
  else if cb.media = ("movie") then
    let key := ("movie_settings_") ++ toString cb.uid
    match w.userData.lookup key with
    | Option.none => { msgs := [expiredMsgFr], w := w, net := 0 }
    | some (.movieS settings) =>
      let g := get_movie_details cb.arg w.cache upD
      let n := if g.net then 1 else 0
      let w1 : World := { w with cache := g.cache }
      match g.result with
      | some d =>
        if d.truthy then
          match movieDisplay d settings.language settings.footer with
          | some fmt => { msgs := [fmt], w := { w1 with userData := udErase w1.userData key }, net := n }
          | Option.none => { msgs := [unexpectedErrorFr], w := w1, net := n }
        else { msgs := [detailsErrorFr], w := w1, net := n }
      | Option.none => { msgs := [detailsErrorFr], w := w1, net := n }
    | some (.animeP _ _) =>
      let g := get_movie_details cb.arg w.cache upD
      let n := if g.net then 1 else 0
      let w1 : World := { w with cache := g.cache }
      match g.result with
      | some d =>
        if d.truthy then { msgs := [unexpectedErrorFr], w := w1, net := n }
        else { msgs := [detailsErrorFr], w := w1, net := n }
      | Option.none => { msgs := [detailsErrorFr], w := w1, net := n }
  else { msgs := [], w := w, net := 0 }

theorem dropWhile_head_false {p : Char → Bool} :
    ∀ {l : List Char} {c : Char} {r : List Char}, List.dropWhile p l = c :: r → p c = false := by
  intro l
  induction l with
  | nil => intro c r h; simp [List.dropWhile] at h
  | cons a u ih =>
    intro c r h
    by_cases hpa : p a
    · rw [List.dropWhile_cons, if_pos hpa] at h
      exact ih h
    · rw [List.dropWhile_cons, if_neg hpa] at h
      cases h
      simpa using hpa

theorem dropWhile_eq_self_of_head {p : Char → Bool} {c : Char} {r : List Char}
    (h : p c = false) : List.dropWhile p (c :: r) = c :: r := by
  simp [List.dropWhile_cons, h]

theorem lstripL_head_false {l : List Char} {c : Char} {r : List Char}
    (h : lstripL l = c :: r) : wsChar c = false := dropWhile_head_false h

theorem rstripL_prefix (l : List Char) : rstripL l <+: l := by
  obtain ⟨u, hu⟩ := List.dropWhile_suffix (l := l.reverse) wsChar
  refine ⟨u.reverse, ?_⟩
  calc rstripL l ++ u.reverse
      = (u ++ List.dropWhile wsChar l.reverse).reverse := by
        simp [rstripL, List.reverse_append]
    _ = l := by rw [hu]; simp

theorem rstripL_getLast_false {l : List Char} {c : Char}
    (h : (rstripL l).getLast? = some c) : wsChar c = false := by
  rw [rstripL, List.getLast?_reverse] at h
  cases hd : List.dropWhile wsChar l.reverse with
  | nil => rw [hd] at h; simp at h
  | cons a u =>
    rw [hd] at h
    simp at h
    rw [← h]
    exact dropWhile_head_false hd

theorem rstripL_eq_self {l : List Char} {c : Char}
    (h : l.getLast? = some c) (hc : wsChar c = false) : rstripL l = l := by
  rw [rstripL]
  have hh : l.reverse.head? = some c := by rw [List.head?_reverse]; exact h
  cases hr : l.reverse with
  | nil =>
    have : l = [] := by simpa using congrArg List.reverse hr
    simp [this]
  | cons a u =>
    rw [hr] at hh
    simp at hh
    subst hh
    rw [dropWhile_eq_self_of_head hc]
    have := congrArg List.reverse hr
    simpa using this.symm

theorem pyStripL_head_false {l : List Char} {c : Char} {r : List Char}
    (h : pyStripL l = c :: r) : wsChar c = false := by
  obtain ⟨u, hu⟩ := rstripL_prefix (lstripL l)
  rw [pyStripL] at h
  rw [h] at hu
  exact lstripL_head_false hu.symm

theorem pyStripL_getLast_false {l : List Char} {c : Char}
    (h : (pyStripL l).getLast? = some c) : wsChar c = false :=
  rstripL_getLast_false h

theorem pyStripL_eq_self {l : List Char}
    (h1 : ∀ c r, l = c :: r → wsChar c = false)
    (h2 : ∀ c, l.getLast? = some c → wsChar c = false) : pyStripL l = l := by
  have hl : lstripL l = l := by
    cases hc : l with
    | nil => simp [lstripL]
    | cons a u => exact dropWhile_eq_self_of_head (h1 a u hc)
  rw [pyStripL, hl]
  cases hg : l.getLast? with
  | none =>
    have : l = [] := by simpa using hg
    simp [this, rstripL]
  | some c => exact rstripL_eq_self hg (h2 c hg)

theorem pyStripL_idem (l : List Char) : pyStripL (pyStripL l) = pyStripL l := by
  apply pyStripL_eq_self
  · intro c r h
    exact pyStripL_head_false h
  · intro c h
    exact pyStripL_getLast_false h

theorem pyStripL_sanitizeL (x : List Char) : pyStripL (sanitizeL x) = sanitizeL x := by
  rw [sanitizeL]
  set c := pyStripL (stripTagsL (unescapeL x)) with hc
  by_cases hlen : 480 < c.length
  · simp only [if_pos hlen]
    apply pyStripL_eq_self
    · intro a r h
      cases hcc : c with
      | nil => rw [hcc] at hlen; simp at hlen
      | cons c0 ct =>
        rw [hcc, List.take_succ_cons, List.cons_append] at h
        have ha : a = c0 := by
          have := congrArg List.head? h.symm
          simpa using this
        rw [ha]
        exact pyStripL_head_false (hc ▸ hcc)
    · intro a h
      have hdot : (c.take 480 ++ ['.', '.', '.']).getLast? = some '.' := by
        rw [← List.head?_reverse]
        simp [List.reverse_append]
      rw [hdot] at h
      cases h
      decide
  · simp only [if_neg hlen]
    rw [hc]
    exact pyStripL_idem _

theorem sanitizeL_of_clean (y : List Char) (h1 : unescapeL y = y) (h2 : stripTagsL y = y)
    (h3 : pyStripL y = y) :
    sanitizeL y = if 480 < y.length then y.take 480 ++ ['.', '.', '.'] else y := by
  rw [sanitizeL, h1, h2, h3]

theorem sanitizeL_idem (x : List Char) (h1 : unescapeL (sanitizeL x) = sanitizeL x)
    (h2 : stripTagsL (sanitizeL x) = sanitizeL x) :
    sanitizeL (sanitizeL x) = sanitizeL x := by
  have h3 := pyStripL_sanitizeL x
  rw [sanitizeL_of_clean _ h1 h2 h3]
  by_cases hlen : 480 < (sanitizeL x).length
  · rw [if_pos hlen]
    rw [sanitizeL] at hlen ⊢
    set c := pyStripL (stripTagsL (unescapeL x)) with hc
    by_cases hc4 : 480 < c.length
    · simp only [if_pos hc4] at hlen ⊢
      rw [List.take_append_of_le_length, List.take_take]
      · norm_num
      · rw [List.length_take]
        omega
    · simp only [if_neg hc4] at hlen
      omega
  · rw [if_neg hlen]

/-- C5 (amended): the sanitizer is idempotent on every input whose one-pass
output is a fixed point of both entity decoding and tag stripping; the
unrestricted statement fails because the second pass decodes entities that
the first pass's decoding itself produced. -/
theorem c5_sanitizer_idem_on_clean (s : String)
    (h1 : unescape_text (sanitize_text s) = sanitize_text s)
    (h2 : striptags_text (sanitize_text s) = sanitize_text s) :
    sanitize_text (sanitize_text s) = sanitize_text s := by
  have e1 : unescapeL (sanitizeL s.data) = sanitizeL s.data := congrArg String.data h1
  have e2 : stripTagsL (sanitizeL s.data) = sanitizeL s.data := congrArg String.data h2
  show String.mk (sanitizeL (sanitizeL s.data)) = sanitize_text s
  rw [sanitizeL_idem s.data e1 e2]
  rfl

/-- C5 counterexample: the claim's unrestricted idempotence is false — the
double-escaped ampersand sanitizes to `&amp;`, and a second application
decodes that to `&`. -/
theorem c5_counterexample :
    sanitize_text (sanitize_text ("&amp;amp;")) ≠ sanitize_text ("&amp;amp;") := by
  decide

theorem c5_witness :
    unescape_text (sanitize_text ("abc")) = sanitize_text ("abc") ∧
    striptags_text (sanitize_text ("abc")) = sanitize_text ("abc") ∧
    sanitize_text (sanitize_text ("abc")) = sanitize_text ("abc") :=
  ⟨by decide, by decide,
   c5_sanitizer_idem_on_clean ("abc") (by decide) (by decide)⟩

theorem t_no_description_ne (lang : String) : t ("no_description") lang ≠ ("") := by
  rw [t, TRANSLATIONS]
  by_cases h1 : lang = ("fr")
  · subst h1; decide
  · by_cases h2 : lang = ("en")
    · subst h2; decide
    · by_cases h3 : lang = ("es")
      · subst h3; decide
      · have b1 : (lang == ("fr")) = false := by simpa using h1
        have b2 : (lang == ("en")) = false := by simpa using h2
        have b3 : (lang == ("es")) = false := by simpa using h3
        simp only [List.lookup, b1, b2, b3]
        decide

/-- C6: an already-clean (entity-free, tag-free, stripped) synopsis of
exactly 480 characters passes through the sanitizer unchanged; one of 481
characters is cut to its first 480 characters plus the three-dot ellipsis;
and the formatted synopsis field substitutes the localized no-description
placeholder for an empty sanitization result, so it is never empty. -/
theorem c6_truncation_and_placeholder :
    (∀ s : String, unescape_text s = s → striptags_text s = s → strip_text s = s →
       s.length = 480 → sanitize_text s = s) ∧
    (∀ s : String, unescape_text s = s → striptags_text s = s → strip_text s = s →
       s.length = 481 →
       sanitize_text s = String.mk (s.data.take 480 ++ ['.', '.', '.'])) ∧
    (∀ x lang : String, desc_or_placeholder x lang ≠ ("")) := by
  refine ⟨?_, ?_, ?_⟩
  · intro s h1 h2 h3 hlen
    have e1 : unescapeL s.data = s.data := congrArg String.data h1
    have e2 : stripTagsL s.data = s.data := congrArg String.data h2
    have e3 : pyStripL s.data = s.data := congrArg String.data h3
    have hl : s.data.length = 480 := hlen
    show String.mk (sanitizeL s.data) = s
    rw [sanitizeL_of_clean _ e1 e2 e3, if_neg (by omega)]
  · intro s h1 h2 h3 hlen
    have e1 : unescapeL s.data = s.data := congrArg String.data h1
    have e2 : stripTagsL s.data = s.data := congrArg String.data h2
    have e3 : pyStripL s.data = s.data := congrArg String.data h3
    have hl : s.data.length = 481 := hlen
    show String.mk (sanitizeL s.data) = String.mk (s.data.take 480 ++ ['.', '.', '.'])
    rw [sanitizeL_of_clean _ e1 e2 e3, if_pos (by omega)]
  · intro x lang
    rw [desc_or_placeholder]
    by_cases hd : sanitize_text x = ("")
    · simp only [hd, ite_true, if_pos]
      exact t_no_description_ne lang
    · simp only [if_neg hd]
      exact hd

set_option maxRecDepth 40000 in
theorem c6_witness :
    ((String.mk (List.replicate 480 'a')).length = 480 ∧
      sanitize_text (String.mk (List.replicate 480 'a')) = String.mk (List.replicate 480 'a')) ∧
    sanitize_text (String.mk (List.replicate 481 'a')) =
      String.mk ((String.mk (List.replicate 481 'a')).data.take 480 ++ ['.', '.', '.']) ∧
    desc_or_placeholder ("") ("en") ≠ ("") :=
  ⟨⟨by decide,
    c6_truncation_and_placeholder.1 _ (by decide) (by decide) (by decide) (by decide)⟩,
   c6_truncation_and_placeholder.2.1 _ (by decide) (by decide) (by decide) (by decide),
   c6_truncation_and_placeholder.2.2 ("") ("en")⟩

theorem lookup_all_prop {β : Type} (p : β → Bool) :
    ∀ (l : List (String × β)) (k : String) (v : β),
      l.all (fun e => p e.2) = true → l.lookup k = some v → p v = true := by
  intro l
  induction l with
  | nil => intro k v _ h; simp [List.lookup] at h
  | cons kb es ih =>
    intro k v hall h
    obtain ⟨k1, v1⟩ := kb
    rw [List.all_cons] at hall
    have hall1 := (Bool.and_eq_true _ _).mp hall
    rw [List.lookup] at h
    cases hkk : (k == k1) with
    | true => rw [hkk] at h; cases h; exact hall1.1
    | false => rw [hkk] at h; exact ih k v hall1.2 h

/-- C9: for every supported language and every key present in that
language's table, `t` returns a non-empty string; for an unsupported
language code, `t` falls back to the French table's value. -/
theorem c9_translate :
    (∀ lang k v, (lang = ("fr") ∨ lang = ("en") ∨ lang = ("es")) →
       ((TRANSLATIONS.lookup lang).getD frTable).lookup k = some v →
       t k lang ≠ ("")) ∧
    (∀ lang k, lang ≠ ("fr") → lang ≠ ("en") → lang ≠ ("es") → t k lang = t k ("fr")) := by
  constructor
  · intro lang k v hsup hv
    have hfr : frTable.all (fun e => !(e.2 == (""))) = true := by decide
    have hen : enTable.all (fun e => !(e.2 == (""))) = true := by decide
    have hes : esTable.all (fun e => !(e.2 == (""))) = true := by decide
    have hne : (!(v == (""))) = true := by
      rcases hsup with h | h | h
      · subst h; exact lookup_all_prop (fun x => !(x == (""))) frTable k v hfr hv
      · subst h; exact lookup_all_prop (fun x => !(x == (""))) enTable k v hen hv
      · subst h; exact lookup_all_prop (fun x => !(x == (""))) esTable k v hes hv
    have hv2 : t k lang = v := by rw [t, hv]; rfl
    rw [hv2]
    intro he
    rw [he] at hne
    simp at hne
  · intro lang k h1 h2 h3
    have b1 : (lang == ("fr")) = false := by simpa using h1
    have b2 : (lang == ("en")) = false := by simpa using h2
    have b3 : (lang == ("es")) = false := by simpa using h3
    rw [t, t, TRANSLATIONS]
    simp only [List.lookup, b1, b2, b3]

theorem c9_witness :
    ((TRANSLATIONS.lookup ("en")).getD frTable).lookup ("welcome") = some ("👋 Welcome") ∧
    t ("welcome") ("en") ≠ ("") ∧
    t ("welcome") ("de") = t ("welcome") ("fr") :=
  ⟨by decide,
   c9_translate.1 ("en") ("welcome") ("👋 Welcome") (Or.inr (Or.inl rfl)) (by decide),
   c9_translate.2 ("de") ("welcome") (by decide) (by decide) (by decide)⟩

/-- C4 counterexample: the search cache key keeps surrounding whitespace —
the key is built from `title.lower()` with no `strip()` (`main.py:382`), so
two titles differing only in surrounding whitespace get distinct cache
entries, contrary to the claim. -/
theorem c4_counterexample : anime_search_key (" Naruto") ≠ anime_search_key ("Naruto") := by
  decide

/-- C4 (amended): search cache keys are the provider tag plus the
lower-cased — but NOT trimmed — search string, so keys are case-insensitive
while surrounding whitespace distinguishes entries; detail lookups key on
the provider-native numeric id untransformed. -/
theorem c4_cache_keys :
    (∀ a b : String, pyLower a = pyLower b → anime_search_key a = anime_search_key b) ∧
    (∀ a b : String, pyLower a = pyLower b → movie_search_key a = movie_search_key b) ∧
    (∀ i : ℤ, movie_details_key i = ("movie_details:") ++ toString i) ∧
    (∀ s : String, anime_search_key s = ("anime_search:") ++ pyLower s) ∧
    (∀ s : String, movie_search_key s = ("movie_search:") ++ pyLower s) := by
  refine ⟨?_, ?_, fun i => rfl, fun s => rfl, fun s => rfl⟩
  · intro a b h
    rw [anime_search_key, anime_search_key, h]
  · intro a b h
    rw [movie_search_key, movie_search_key, h]

theorem c4_witness :
    pyLower ("NARUTO") = pyLower ("naruto") ∧
    anime_search_key ("NARUTO") = anime_search_key ("naruto") :=
  ⟨by decide, c4_cache_keys.1 ("NARUTO") ("naruto") (by decide)⟩

/-- C1 counterexample: on the movie path a strictly positive in-scale score
below 1 renders the unknown sentinel, not a 5-glyph scale — the code's
guard is `vote >= 1` (`main.py:529`), not `vote > 0`. -/
theorem c1_counterexample :
    (0 : ℚ) < 1 / 2 ∧ (1 / 2 : ℚ) ≤ 10 ∧ movie_rating (.rat (1 / 2)) = some ("?") := by
  refine ⟨by norm_num, by norm_num, ?_⟩
  simp only [movie_rating]
  rw [if_neg (by norm_num : ¬((1 : ℚ) ≤ 1 / 2))]

/-- C1 (amended): the anime path behaves as claimed for integer scores in
(0, 100] — exactly `⌊5·s/100⌋` filled stars then empty stars to 5 glyphs,
with the sentinel for an absent or zero score.  The movie path renders the
sentinel exactly when the score is absent or below 1 (not merely
non-positive); for `1 ≤ s ≤ 10` it renders `⌊5·s/10⌋` filled stars then
empty stars to 5 glyphs. -/
theorem c1_star_rating :
    (∀ s : ℤ, 0 < s → s ≤ 100 →
       anime_rating (.int s) =
         some (String.mk (List.replicate ((5 * s).fdiv 100).toNat '★' ++
                          List.replicate (5 - ((5 * s).fdiv 100).toNat) '☆')) ∧
       ((anime_rating (.int s)).getD ("")).length = 5) ∧
    (anime_rating .none = some ("?") ∧ anime_rating (.int 0) = some ("?")) ∧
    (∀ q : ℚ, 1 ≤ q → q ≤ 10 →
       movie_rating (.rat q) =
         some (String.mk (List.replicate (⌊5 * q / 10⌋).toNat '★' ++
                          List.replicate (5 - (⌊5 * q / 10⌋).toNat) '☆')) ∧
       ((movie_rating (.rat q)).getD ("")).length = 5) ∧
    ((∀ q : ℚ, 0 ≤ q → q < 1 → movie_rating (.rat q) = some ("?")) ∧
      movie_rating (.int 0) = some ("?")) := by
  refine ⟨?_, ⟨by decide, by decide⟩, ?_, ⟨?_, by decide⟩⟩
  · intro s h0 h1
    have hfd : Int.fdiv s 20 = s / 20 := Int.fdiv_eq_ediv s (by norm_num)
    have hfd5 : (5 * s).fdiv 100 = s / 20 := by
      rw [Int.fdiv_eq_ediv _ (by norm_num)]
      rw [(by norm_num : (100 : ℤ) = 5 * 20), Int.mul_ediv_mul_of_pos _ _ (by norm_num : (0:ℤ) < 5)]
    have hb0 : 0 ≤ s / 20 := by omega
    have hb5 : s / 20 ≤ 5 := by omega
    have ht : (PyV.int s).truthy = true := by
      simp [PyV.truthy]
      omega
    have heq : anime_rating (.int s) =
        some (String.mk (List.replicate (Int.fdiv s 20).toNat '★' ++
                         List.replicate (5 - Int.fdiv s 20).toNat '☆')) := by
      rw [anime_rating, if_pos ht]
    constructor
    · rw [heq, hfd, hfd5]
      have hts : ((5 : ℤ) - s / 20).toNat = 5 - (s / 20).toNat := by omega
      rw [hts]
    · rw [heq]
      show (String.mk _).length = 5
      simp only [String.length, List.length_append, List.length_replicate]
      omega
  · intro q h0 h1
    have hq2 : (5 * q / 10 : ℚ) = q / 2 := by ring
    have hb0 : 0 ≤ ⌊q / 2⌋ := Int.floor_nonneg.mpr (by linarith)
    have hb5 : ⌊q / 2⌋ ≤ 5 := by
      have : (q / 2 : ℚ) ≤ 5 := by linarith
      calc ⌊q / 2⌋ ≤ ⌊(5 : ℚ)⌋ := Int.floor_le_floor this
      _ = 5 := by norm_num
    have heq : movie_rating (.rat q) =
        some (String.mk (List.replicate (⌊q / 2⌋).toNat '★' ++
                         List.replicate (5 - ⌊q / 2⌋).toNat '☆')) := by
      simp only [movie_rating]
      rw [if_pos h0]
    constructor
    · rw [heq, hq2]
      have hts : ((5 : ℤ) - ⌊q / 2⌋).toNat = 5 - (⌊q / 2⌋).toNat := by omega
      rw [hts]
    · rw [heq]
      show (String.mk _).length = 5
      simp only [String.length, List.length_append, List.length_replicate]
      omega
  · intro q h0 h1
    simp only [movie_rating]
    rw [if_neg (by linarith : ¬((1 : ℚ) ≤ q))]

theorem c1_witness :
    ((0 : ℤ) < 85 ∧ (85 : ℤ) ≤ 100 ∧
      anime_rating (.int 85) =
        some (String.mk (List.replicate ((5 * (85 : ℤ)).fdiv 100).toNat '★' ++
                         List.replicate (5 - ((5 * (85 : ℤ)).fdiv 100).toNat) '☆'))) ∧
    ((1 : ℚ) ≤ 39 / 5 ∧ (39 / 5 : ℚ) ≤ 10 ∧
      ((movie_rating (.rat (39 / 5))).getD ("")).length = 5) ∧
    ((0 : ℚ) ≤ 1 / 5 ∧ (1 / 5 : ℚ) < 1 ∧ movie_rating (.rat (1 / 5)) = some ("?")) :=
  ⟨⟨by decide, by decide, (c1_star_rating.1 85 (by decide) (by decide)).1⟩,
   ⟨by norm_num, by norm_num,
    (c1_star_rating.2.2.1 (39 / 5) (by norm_num) (by norm_num)).2⟩,
   ⟨by norm_num, by norm_num,
    c1_star_rating.2.2.2.1 (1 / 5) (by norm_num) (by norm_num)⟩⟩

theorem dGet_cons_ne (k key : String) (v : PyV) (d : List (String × PyV)) (dflt : PyV)
    (h : (key == k) = false) :
    dGet (.dictV ((k, v) :: d)) key dflt = dGet (.dictV d) key dflt := by
  simp [dGet, List.lookup, h]

theorem movie_fields_status_skip (d : List (String × PyV)) (v : PyV) (lang : String) :
    movie_fields (.dictV ((("status"), v) :: d)) lang = movie_fields (.dictV d) lang := by
  simp only [movie_fields]
  rw [dGet_cons_ne ("status") ("release_date") v d (.str ("")) (by decide),
      dGet_cons_ne ("status") ("genres") v d (.listV []) (by decide),
      dGet_cons_ne ("status") ("runtime") v d .none (by decide),
      dGet_cons_ne ("status") ("runtime") v d (.str ("?")) (by decide),
      dGet_cons_ne ("status") ("popularity") v d .none (by decide),
      dGet_cons_ne ("status") ("popularity") v d (.int 0) (by decide),
      dGet_cons_ne ("status") ("vote_average") v d (.int 0) (by decide),
      dGet_cons_ne ("status") ("overview") v d (.str ("")) (by decide),
      dGet_cons_ne ("status") ("title") v d (.str ("???")) (by decide)]

/-- C10: `format_movie` never consults the record's own status field — the
rendered text is unchanged under any value stored at the `status` key — and
whenever formatting succeeds, the output contains the localized
`status_released` ("Released") label interpolated at the status line. -/
theorem c10_movie_status_constant :
    (∀ (d : List (String × PyV)) (v v' : PyV) (lang footer : String),
       format_movie (.dictV ((("status"), v) :: d)) lang footer =
       format_movie (.dictV ((("status"), v') :: d)) lang footer) ∧
    (∀ (d : List (String × PyV)) (lang footer out : String),
       format_movie (.dictV d) lang footer = some out →
       ∃ a b, out = a ++ (t ("status_released") lang ++ b)) := by
  constructor
  · intro d v v' lang footer
    rw [format_movie, format_movie, movie_fields_status_skip, movie_fields_status_skip]
  · intro d lang footer out h
    rw [format_movie] at h
    cases hf : movie_fields (.dictV d) lang with
    | none => rw [hf] at h; simp at h
    | some p =>
      rw [hf] at h
      simp only [Option.map_some', Option.some.injEq] at h
      exact ⟨movie_render_pre p lang, movie_render_post p lang footer, h.symm⟩

set_option maxRecDepth 40000 in
theorem c10_witness :
    (format_movie (.dictV [(("status"), PyV.str ("x"))]) ("fr") ("@f") =
     format_movie (.dictV [(("status"), PyV.str ("y"))]) ("fr") ("@f")) ∧
    (∃ a b, (format_movie (.dictV []) ("fr") ("@f")).getD ("") =
       a ++ (t ("status_released") ("fr") ++ b)) :=
  ⟨c10_movie_status_constant.1 [] (.str ("x")) (.str ("y")) ("fr") ("@f"),
   c10_movie_status_constant.2 [] ("fr") ("@f")
     ((format_movie (.dictV []) ("fr") ("@f")).getD ("")) (by decide)⟩

/-- C2 (amended): an unauthorized caller triggers no provider call, no
cache write, no stats write and no preference-store mutation in any command
handler; only `/start` surfaces the access-denied message (in the French
default, since the caller's settings are never loaded), while every other
handler returns silently with no reply at all. -/
theorem c2_unauthorized_no_processing :
    ∀ (auth : List ℤ) (uid : ℤ), uid ∉ auth →
      (∀ w, start auth uid w = ⟨[t ("access_denied") ("fr")], w, 0⟩) ∧
      (∀ w, help_command auth uid w = ⟨[], w, 0⟩) ∧
      (∀ w env tmdb now, stats_command auth uid env tmdb now w = ⟨[], w, 0⟩) ∧
      (∀ w, clear_cache auth uid w = ⟨[], w, 0⟩) ∧
      (∀ w args, set_footer auth uid args w = ⟨[], w, 0⟩) ∧
      (∀ w args, set_language auth uid args w = ⟨[], w, 0⟩) ∧
      (∀ w args up, anime_command auth uid args up w = ⟨[], w, 0⟩) ∧
      (∀ w tmdb args upS upD, movie_command auth uid tmdb args upS upD w = ⟨[], w, 0⟩) := by
  intro auth uid h
  refine ⟨?_, ?_, ?_, ?_, ?_, ?_, ?_, ?_⟩ <;> intros <;>
    simp [start, help_command, stats_command, clear_cache, set_footer, set_language,
          anime_command, movie_command, h]

/-- C2 counterexample: an unauthorized caller of `/help` (and of every
handler other than `/start`) receives NO message at all — the handler
returns silently (`main.py:580-582`), so no access-denied message is
surfaced. -/
theorem c2_counterexample :
    (2 : ℤ) ∉ ([1] : List ℤ) ∧
    (help_command [1] 2 ⟨[], [], [], []⟩).msgs = [] ∧
    (set_language [1] 2 [("en")] ⟨[], [], [], []⟩).msgs = [] :=
  ⟨by decide, rfl, rfl⟩

theorem c2_witness :
    (2 : ℤ) ∉ ([1] : List ℤ) ∧
    (∀ w, start ([1] : List ℤ) 2 w = ⟨[t ("access_denied") ("fr")], w, 0⟩) ∧
    (∀ w args up, anime_command ([1] : List ℤ) 2 args up w = ⟨[], w, 0⟩) :=
  ⟨by decide,
   (c2_unauthorized_no_processing [1] 2 (by decide)).1,
   (c2_unauthorized_no_processing [1] 2 (by decide)).2.2.2.2.2.2.1⟩

theorem lookup_append_of_none (s : Store) (k : ℤ) (x : UserSettings)
    (h : s.lookup k = Option.none) : (s ++ [(k, x)]).lookup k = some x := by
  induction s with
  | nil => simp [List.lookup]
  | cons a es ih =>
    obtain ⟨k1, v1⟩ := a
    rw [List.lookup] at h
    rw [List.cons_append, List.lookup]
    cases hk : (k == k1) with
    | true => rw [hk] at h; exact absurd h (by simp)
    | false => rw [hk] at h; exact ih h

theorem lookup_map_update (s : Store) (k : ℤ) (f : UserSettings → UserSettings) :
    ∀ {u}, s.lookup k = some u →
      (s.map (fun r => if r.1 == k then (r.1, f r.2) else r)).lookup k = some (f u) := by
  induction s with
  | nil => intro u h; simp [List.lookup] at h
  | cons a es ih =>
    intro u h
    obtain ⟨k1, v1⟩ := a
    by_cases hk : k = k1
    · subst hk
      rw [List.lookup, beq_self_eq_true] at h
      have hv : v1 = u := by simpa using h
      subst hv
      simp only [List.map_cons]
      have hval : (if ((k, v1).1 == k) = true then ((k, v1).1, f (k, v1).2) else (k, v1)) =
          (k, f v1) := by simp
      rw [hval, List.lookup, beq_self_eq_true]
    · have b : (k == k1) = false := by simpa using hk
      have b2 : (k1 == k) = false := by simpa using (Ne.symm hk)
      rw [List.lookup, b] at h
      simp only [List.map_cons]
      have hval : (if ((k1, v1).1 == k) = true then ((k1, v1).1, f (k1, v1).2) else (k1, v1)) =
          (k1, v1) := by simp [b2]
      rw [hval, List.lookup, b]
      exact ih h

theorem update_user_language_lookup (uid : ℤ) (lang : String) (s : Store) :
    ((update_user_language uid lang s).lookup uid).map UserSettings.language = some lang := by
  rw [update_user_language]
  cases hs : s.lookup uid with
  | some u =>
    rw [if_pos (by rfl)]
    rw [lookup_map_update s uid (fun r => { r with language := lang }) hs]
    rfl
  | none =>
    rw [if_neg (by simp)]
    rw [lookup_append_of_none s uid _ hs]
    rfl

/-- C8 (amended): `/setlang` accepts exactly the closed set {fr, en, es}.
A missing or unsupported argument yields only the localized usage hint,
leaves the cache and stats untouched, changes no stored language, and
performs no store write beyond the lazy creation of the caller's default
settings row (for an already-seen caller the store is fully unchanged).  A
valid code is persisted for the calling user. -/
theorem c8_setlang_validation :
    ∀ (auth : List ℤ) (uid : ℤ) (w : World), uid ∈ auth →
      ((set_language auth uid [] w).msgs =
         [setlang_usage (get_user_settings uid w.store).1.language] ∧
       (set_language auth uid [] w).w.store = (get_user_settings uid w.store).2 ∧
       (set_language auth uid [] w).w.cache = w.cache ∧
       (set_language auth uid [] w).w.stats = w.stats ∧
       (set_language auth uid [] w).net = 0) ∧
      (∀ code rest, code ≠ ("fr") → code ≠ ("en") → code ≠ ("es") →
        (set_language auth uid (code :: rest) w).msgs =
          [setlang_usage (get_user_settings uid w.store).1.language] ∧
        (set_language auth uid (code :: rest) w).w.store = (get_user_settings uid w.store).2 ∧
        (set_language auth uid (code :: rest) w).w.cache = w.cache ∧
        (set_language auth uid (code :: rest) w).net = 0) ∧
      (∀ s, w.store.lookup uid = some s → (get_user_settings uid w.store).2 = w.store) ∧
      (∀ code rest, (code = ("fr") ∨ code = ("en") ∨ code = ("es")) →
        ((set_language auth uid (code :: rest) w).w.store.lookup uid).map
            UserSettings.language = some code) := by
  intro auth uid w hmem
  refine ⟨?_, ?_, ?_, ?_⟩
  · simp [set_language, hmem]
  · intro code rest h1 h2 h3
    simp [set_language, hmem, h1, h2, h3]
  · intro s hs
    rw [get_user_settings, hs]
  · intro code rest hcode
    have hc : (code = ("fr") ∨ code = ("en") ∨ code = ("es")) := hcode
    simp only [set_language, if_pos hmem]
    rw [if_pos hc]
    exact update_user_language_lookup uid code _

theorem c8_counterexample :
    (set_language [1] 1 [("de")] ⟨[], [], [], []⟩).w.store = [(1, defaultSettings)] ∧
    (⟨[], [], [], []⟩ : World).store = [] :=
  ⟨rfl, rfl⟩

theorem c8_witness :
    (1 : ℤ) ∈ ([1] : List ℤ) ∧
    ((set_language [1] 1 [("de")] ⟨[], [], [], []⟩).msgs =
      [setlang_usage (get_user_settings 1 (([] : Store))).1.language]) ∧
    (((set_language [1] 1 [("en")] ⟨[], [], [], []⟩).w.store.lookup 1).map
        UserSettings.language = some ("en")) :=
  ⟨by decide,
   ((c8_setlang_validation [1] 1 ⟨[], [], [], []⟩ (by decide)).2.1 ("de") []
      (by decide) (by decide) (by decide)).1,
   (c8_setlang_validation [1] 1 ⟨[], [], [], []⟩ (by decide)).2.2.2 ("en") []
      (Or.inr (Or.inl rfl))⟩

/-- C3 (amended): network errors, timeouts and undecodable payloads never
write the cache; a search whose extracted result list is falsy (empty) is
not cached; a cache hit answers without attempting any request; but a
detail fetch caches whatever JSON object a successful response decodes to —
including an empty, falsy one — so "empty detail results are never cached"
is the one part of the claim the code violates. -/
theorem c3_cache_discipline :
    (∀ title cache tmdb mid up,
       (up = Upstream.timeout ∨ up = Upstream.httpError ∨ up = Upstream.malformed) →
       (search_anime title cache up).cache = cache ∧
       (search_movie tmdb title cache up).cache = cache ∧
       (get_movie_details mid cache up).cache = cache) ∧
    (∀ title cache body,
       (∀ r, extract_anime_results body = some r → r.truthy = false) →
       (search_anime title cache (.ok body)).cache = cache) ∧
    (∀ tmdb title cache body,
       (∀ r, extract_movie_results body = some r → r.truthy = false) →
       (search_movie tmdb title cache (.ok body)).cache = cache) ∧
    (∀ title cache up v, cache.lookup (anime_search_key title) = some v →
       (search_anime title cache up).net = false ∧
       (search_anime title cache up).result = some v) ∧
    (∀ title cache up v, cache.lookup (movie_search_key title) = some v →
       (search_movie true title cache up).net = false ∧
       (search_movie true title cache up).result = some v) ∧
    (∀ mid cache up v, cache.lookup (movie_details_key mid) = some v →
       (get_movie_details mid cache up).net = false ∧
       (get_movie_details mid cache up).result = some v) ∧
    (∀ mid cache body, cache.lookup (movie_details_key mid) = Option.none →
       (get_movie_details mid cache (.ok body)).cache =
         cacheSet cache (movie_details_key mid) body) := by
  refine ⟨?_, ?_, ?_, ?_, ?_, ?_, ?_⟩
  · intro title cache tmdb mid up h
    refine ⟨?_, ?_, ?_⟩
    · rcases h with rfl | rfl | rfl <;>
        cases hl : cache.lookup (anime_search_key title) <;>
        simp [search_anime, hl]
    · rcases h with rfl | rfl | rfl <;>
        cases tmdb <;>
        cases hl : cache.lookup (movie_search_key title) <;>
        simp [search_movie, hl]
    · rcases h with rfl | rfl | rfl <;>
        cases hl : cache.lookup (movie_details_key mid) <;>
        simp [get_movie_details, hl]
  · intro title cache body h
    cases hl : cache.lookup (anime_search_key title) with
    | some v => simp [search_anime, hl]
    | none =>
      cases he : extract_anime_results body with
      | none => simp [search_anime, hl, he]
      | some r => simp [search_anime, hl, he, h r he]
  · intro tmdb title cache body h
    cases tmdb with
    | false => simp [search_movie]
    | true =>
      cases hl : cache.lookup (movie_search_key title) with
      | some v => simp [search_movie, hl]
      | none =>
        cases he : extract_movie_results body with
        | none => simp [search_movie, hl, he]
        | some r => simp [search_movie, hl, he, h r he]
  · intro title cache up v hl
    constructor <;> simp [search_anime, hl]
  · intro title cache up v hl
    constructor <;> simp [search_movie, hl]
  · intro mid cache up v hl
    constructor <;> simp [get_movie_details, hl]
  · intro mid cache body hl
    simp [get_movie_details, hl]

/-- C3 counterexample: a detail lookup whose successful response decodes to
the empty JSON object — a falsy payload that every caller treats as "no
data" (`if not details`) — still writes a cache entry (`main.py:458-459`),
so an empty detail result IS cached, contrary to the claim. -/
theorem c3_counterexample :
    PyV.truthy (.dictV []) = false ∧
    (get_movie_details 7 [] (.ok (.dictV []))).result = some (.dictV []) ∧
    (get_movie_details 7 [] (.ok (.dictV []))).cache =
      [(("movie_details:7"), PyV.dictV [])] :=
  ⟨rfl, rfl, rfl⟩

theorem c3_witness :
    ((search_anime ("x") [] Upstream.timeout).cache = [] ∧
     (search_movie true ("x") [] Upstream.timeout).cache = [] ∧
     (get_movie_details 7 [] Upstream.timeout).cache = []) ∧
    ((search_anime ("x") [((anime_search_key ("x")), PyV.int 1)] Upstream.timeout).net = false ∧
     (search_anime ("x") [((anime_search_key ("x")), PyV.int 1)] Upstream.timeout).result =
       some (.int 1)) :=
  ⟨c3_cache_discipline.1 ("x") [] true 7 Upstream.timeout (Or.inl rfl),
   c3_cache_discipline.2.2.2.1 ("x") [((anime_search_key ("x")), PyV.int 1)]
     Upstream.timeout (.int 1) rfl⟩

theorem udErase_lookup (ud : List (String × UDVal)) (k : String) :
    (udErase ud k).lookup k = Option.none := by
  induction ud with
  | nil => rfl
  | cons a es ih =>
    obtain ⟨k1, v1⟩ := a
    rw [udErase, List.filter]
    cases hk : (k1 == k) with
    | true => simpa [udErase] using ih
    | false =>
      have b : (k == k1) = false := by
        have : ¬(k1 = k) := by simpa using hk
        simpa using (Ne.symm this)
      simp only [Bool.not_false]
      rw [List.lookup, b]
      simpa [udErase] using ih

/-- C7 (amended): a selection token pressed by a user other than the
initiator is a no-op that leaves all state (the pending selection included)
intact; a token whose pending selection never existed, or was already
consumed, yields the session-expired reply — which is a fixed French
string, not a message localized to the caller's configured language; a
successful anime selection surfaces exactly the formatted candidate and
consumes the pending entry, so an immediate second press of the same token
gets the session-expired reply. -/
theorem c7_selection_lifecycle :
    (∀ cb fromUser upD w, fromUser ≠ cb.uid →
       button_callback cb fromUser upD w = ⟨[], w, 0⟩) ∧
    (∀ (uid idx : ℤ) upD w,
       w.userData.lookup (("anime_results_") ++ toString uid) = Option.none →
       button_callback ⟨("anime"), idx, uid⟩ uid upD w = ⟨[expiredMsgFr], w, 0⟩) ∧
    (∀ (uid mid : ℤ) upD w,
       w.userData.lookup (("movie_settings_") ++ toString uid) = Option.none →
       button_callback ⟨("movie"), mid, uid⟩ uid upD w = ⟨[expiredMsgFr], w, 0⟩) ∧
    (∀ (uid idx : ℤ) upD upD2 w results settings,
       w.userData.lookup (("anime_results_") ++ toString uid) =
         some (.animeP results settings) →
       (anime_pick results idx settings).isSome = true →
       (button_callback ⟨("anime"), idx, uid⟩ uid upD w).msgs =
         [(anime_pick results idx settings).getD ("")] ∧
       (button_callback ⟨("anime"), idx, uid⟩ uid upD w).w.userData.lookup
         (("anime_results_") ++ toString uid) = Option.none ∧
       button_callback ⟨("anime"), idx, uid⟩ uid upD2
           (button_callback ⟨("anime"), idx, uid⟩ uid upD w).w =
         ⟨[expiredMsgFr], (button_callback ⟨("anime"), idx, uid⟩ uid upD w).w, 0⟩) ∧
    (∀ (uid mid : ℤ) upD upD2 w settings body,
       w.userData.lookup (("movie_settings_") ++ toString uid) =
         some (.movieS settings) →
       (get_movie_details mid w.cache upD).result = some body →
       body.truthy = true →
       (movieDisplay body settings.language settings.footer).isSome = true →
       (button_callback ⟨("movie"), mid, uid⟩ uid upD w).msgs =
         [(movieDisplay body settings.language settings.footer).getD ("")] ∧
       (button_callback ⟨("movie"), mid, uid⟩ uid upD w).w.userData.lookup
         (("movie_settings_") ++ toString uid) = Option.none ∧
       button_callback ⟨("movie"), mid, uid⟩ uid upD2
           (button_callback ⟨("movie"), mid, uid⟩ uid upD w).w =
         ⟨[expiredMsgFr], (button_callback ⟨("movie"), mid, uid⟩ uid upD w).w, 0⟩) := by
  refine ⟨?_, ?_, ?_, ?_, ?_⟩
  · intro cb fromUser upD w h
    rw [button_callback, if_pos h]
  · intro uid idx upD w h
    simp [button_callback, h]
  · intro uid mid upD w h
    simp [button_callback, h]
  · intro uid idx upD upD2 w results settings h hp
    obtain ⟨fmt, hfmt⟩ := Option.isSome_iff_exists.mp hp
    have h1 : button_callback ⟨("anime"), idx, uid⟩ uid upD w =
        HOut.mk [fmt]
          (World.mk w.cache w.store w.stats
            (udErase w.userData (("anime_results_") ++ toString uid))) 0 := by
      simp [button_callback, h, hfmt]
    refine ⟨?_, ?_, ?_⟩
    · rw [h1]
      simp [hfmt]
    · rw [h1]
      exact udErase_lookup _ _
    · rw [h1]
      simp [button_callback, udErase_lookup]
  · intro uid mid upD upD2 w settings body h hg htr hp
    obtain ⟨fmt, hfmt⟩ := Option.isSome_iff_exists.mp hp
    have h1 : button_callback ⟨("movie"), mid, uid⟩ uid upD w =
        HOut.mk [fmt]
          (World.mk (get_movie_details mid w.cache upD).cache w.store w.stats
            (udErase w.userData (("movie_settings_") ++ toString uid)))
          (if (get_movie_details mid w.cache upD).net then 1 else 0) := by
      simp [button_callback, h, hg, htr, hfmt]
    refine ⟨?_, ?_, ?_⟩
    · rw [h1]
      simp [hfmt]
    · rw [h1]
      exact udErase_lookup _ _
    · rw [h1]
      simp [button_callback, udErase_lookup]

/-- C7 counterexample: the session-expired reply is NOT rendered in the
caller's configured language — a caller whose stored language is "en" gets
the identical hard-coded French text (`main.py:829`), and no language's
translation table even has a session-expired key. -/
theorem c7_counterexample :
    (button_callback ⟨("anime"), 0, 5⟩ 5 Upstream.timeout
        ⟨[], [(5, ⟨("en"), ("f")⟩)], [], []⟩).msgs =
      [("❌ Session expirée. Relancez la recherche.")] ∧
    frTable.lookup ("session_expired") = Option.none ∧
    enTable.lookup ("session_expired") = Option.none ∧
    esTable.lookup ("session_expired") = Option.none :=
  ⟨rfl, by decide, by decide, by decide⟩

/-- A one-candidate pending result list used to exercise the selection
flow. -/
def c7_results : PyV :=
  PyV.listV [PyV.dictV [(("title"), PyV.dictV [(("romaji"), PyV.str ("A"))])]]

/-- A world holding exactly one pending anime selection for user 5. -/
def c7_world : World :=
  ⟨[], [], [], [((("anime_results_5")), UDVal.animeP c7_results defaultSettings)]⟩

set_option maxRecDepth 40000 in
theorem c7_witness :
    ((c7_world.userData.lookup (("anime_results_") ++ toString (5 : ℤ)) =
        some (UDVal.animeP c7_results defaultSettings)) ∧
      (anime_pick c7_results 0 defaultSettings).isSome = true) ∧
    ((button_callback ⟨("anime"), 0, 5⟩ 5 Upstream.timeout c7_world).msgs =
        [(anime_pick c7_results 0 defaultSettings).getD ("")] ∧
      (button_callback ⟨("anime"), 0, 5⟩ 5 Upstream.timeout c7_world).w.userData.lookup
        (("anime_results_") ++ toString (5 : ℤ)) = Option.none ∧
      button_callback ⟨("anime"), 0, 5⟩ 5 Upstream.httpError
          (button_callback ⟨("anime"), 0, 5⟩ 5 Upstream.timeout c7_world).w =
        ⟨[expiredMsgFr], (button_callback ⟨("anime"), 0, 5⟩ 5 Upstream.timeout c7_world).w,
         0⟩) :=
  ⟨⟨rfl, rfl⟩,
   c7_selection_lifecycle.2.2.2.1 5 0 Upstream.timeout Upstream.httpError c7_world
     c7_results defaultSettings rfl rfl⟩
